import Mathlib

/-!
Verification of the order-creation / stock-adjustment workflow of the
`go-clean-arch` e-commerce backend.

The Go source is shallowly embedded: the relational store (`users`,
`products`, `orders`, `order_items`, `shipping_info` tables) is a record of
lists, SQL statements become pure functions on that record, `time.Now()`
becomes an explicit `now` parameter, and the possibility that any individual
SQL statement fails at the database level is modelled by an oracle
`fail : Nat → Bool` indexed by the position of the statement in the call; the
`noFail` oracle is a healthy database.  A SQL transaction is a pure function
on a scratch copy of the store; only a successful commit publishes it, which
mirrors the Go code's `defer tx.Rollback()` / `tx.Commit()` discipline (and
the abandoned-transaction returns, whose writes equally never commit).

Go `float64` money amounts are modelled as `Rat` (the claims under study are
about which products of prices and quantities get summed and stored, not
about rounding); Go `int`/`int64` are modelled as `Int`.  String columns that
no claim and no control-flow decision depends on (product SKU, description,
category, user password, …) are elided from the row types.
-/

namespace GoCleanArch

/-! ### Error model (`pkg/errors/errors.go`)

`AppError` wraps a sentinel error (`ErrNotFound`, `ErrInvalidInput`, …) plus a
message and an HTTP status code; the sentinel determines how callers classify
the failure, so it is modelled as an error kind.  `NewInternalError` keeps the
wrapped driver error, which the embedding does not inspect. -/

inductive ErrKind where
  | notFound
  | invalidInput
  | conflict
  | internal
  deriving DecidableEq, Repr

structure AppError where
  kind : ErrKind
  message : String
  deriving DecidableEq, Repr

def NewNotFoundError (entity : String) (id : Int) : AppError :=
  { kind := .notFound, message := entity ++ " with ID " ++ toString id ++ " not found" }

def NewBadRequestError (message : String) : AppError :=
  { kind := .invalidInput, message := message }

def NewInternalError : AppError :=
  { kind := .internal, message := "internal server error" }

/-! ### Domain entities (`internal/domain`) -/

inductive OrderStatus where
  | pending
  | processing
  | completed
  | cancelled
  deriving DecidableEq, Repr

structure User where
  id : Int := 0
  username : String := ""
  email : String := ""
  role : String := ""
  createdAt : Int := 0
  updatedAt : Int := 0
  deriving DecidableEq, Repr

structure Product where
  id : Int := 0
  name : String := ""
  price : Rat := 0
  stock : Int := 0
  createdAt : Int := 0
  updatedAt : Int := 0
  deriving DecidableEq, Repr

/-- `domain.OrderItem`; the in-memory `Product` snapshot field is elided
(it is never persisted and no claim reads it). -/
structure OrderItem where
  id : Int := 0
  orderId : Int := 0
  productId : Int := 0
  quantity : Int := 0
  price : Rat := 0
  createdAt : Int := 0
  updatedAt : Int := 0
  deriving DecidableEq, Repr

structure ShippingInfo where
  id : Int := 0
  orderId : Int := 0
  address : String := ""
  city : String := ""
  state : String := ""
  country : String := ""
  postalCode : String := ""
  phoneNumber : String := ""
  createdAt : Int := 0
  updatedAt : Int := 0
  deriving DecidableEq, Repr

/-- The Go zero value of `domain.ShippingInfo`. -/
def zeroShippingInfo : ShippingInfo := {}

/-- `domain.Order` (payment method kept as its string value). -/
structure Order where
  id : Int := 0
  userId : Int := 0
  user : User := {}
  status : OrderStatus := .pending
  totalAmount : Rat := 0
  items : List OrderItem := []
  paymentMethod : String := ""
  shippingInfo : ShippingInfo := {}
  createdAt : Int := 0
  updatedAt : Int := 0
  deriving DecidableEq, Repr

structure OrderItemCreateDTO where
  productId : Int
  quantity : Int
  price : Rat
  deriving DecidableEq, Repr

structure ShippingInfoDTO where
  address : String := ""
  city : String := ""
  state : String := ""
  country : String := ""
  postalCode : String := ""
  phoneNumber : String := ""
  deriving DecidableEq, Repr

structure OrderCreateDTO where
  userId : Int
  items : List OrderItemCreateDTO
  paymentMethod : String
  shippingInfo : ShippingInfoDTO
  deriving DecidableEq, Repr

/-! ### The relational store

One record of table contents plus the `SERIAL` id counters.  The `orders`
table row carries exactly the SQL columns (no items/user/shipping). -/

structure OrderRow where
  id : Int := 0
  userId : Int := 0
  status : OrderStatus := .pending
  totalAmount : Rat := 0
  paymentMethod : String := ""
  createdAt : Int := 0
  updatedAt : Int := 0
  deriving DecidableEq, Repr

structure DB where
  users : List User := []
  products : List Product := []
  orders : List OrderRow := []
  orderItems : List OrderItem := []
  shippingInfo : List ShippingInfo := []
  nextOrderId : Int := 1
  nextOrderItemId : Int := 1
  nextShippingId : Int := 1
  deriving DecidableEq, Repr

def DB.findUser (db : DB) (id : Int) : Option User :=
  db.users.find? (fun u => u.id == id)

def DB.findProduct (db : DB) (id : Int) : Option Product :=
  db.products.find? (fun p => p.id == id)

def DB.findOrder (db : DB) (id : Int) : Option OrderRow :=
  db.orders.find? (fun o => o.id == id)

def DB.findShipping (db : DB) (orderId : Int) : Option ShippingInfo :=
  db.shippingInfo.find? (fun s => s.orderId == orderId)

/-- `UPDATE products SET stock = stock - $1, updated_at = $2 WHERE id = $3`
(the decrement form shared by `orderRepository.Create` and
`orderRepository.AddOrderItem`). -/
def DB.decrementStock (db : DB) (pid : Int) (qty : Int) (now : Int) : DB :=
  { db with
    products := db.products.map (fun q =>
      if q.id == pid then { q with stock := q.stock - qty, updatedAt := now } else q) }

/-- `INSERT INTO order_items (...) RETURNING id`: the row as inserted — the
generated serial id, the owning order, the request's product/quantity/price
columns, and the timestamps. -/
def insertedItem (db : DB) (orderId now : Int) (item : OrderItem) : OrderItem :=
  { item with id := db.nextOrderItemId, orderId := orderId, createdAt := now, updatedAt := now }

/-- The store after that `order_items` insert. -/
def DB.insertItemRow (db : DB) (orderId now : Int) (item : OrderItem) : DB :=
  { db with orderItems := db.orderItems ++ [insertedItem db orderId now item],
            nextOrderItemId := db.nextOrderItemId + 1 }

/-- `INSERT INTO orders (...) RETURNING id`: the row as inserted. -/
def insertedOrderRow (db : DB) (now : Int) (order : Order) : OrderRow :=
  { id := db.nextOrderId, userId := order.userId, status := order.status,
    totalAmount := order.totalAmount, paymentMethod := order.paymentMethod,
    createdAt := now, updatedAt := now }

/-- The store after that `orders` insert. -/
def DB.insertOrderRow (db : DB) (now : Int) (order : Order) : DB :=
  { db with orders := db.orders ++ [insertedOrderRow db now order],
            nextOrderId := db.nextOrderId + 1 }

/-- `INSERT INTO shipping_info (...) RETURNING id`: the row as inserted. -/
def insertedShipping (db : DB) (orderId now : Int) (s : ShippingInfo) : ShippingInfo :=
  { s with id := db.nextShippingId, orderId := orderId, createdAt := now, updatedAt := now }

/-- The store after that `shipping_info` insert. -/
def DB.insertShippingRow (db : DB) (orderId now : Int) (s : ShippingInfo) : DB :=
  { db with shippingInfo := db.shippingInfo ++ [insertedShipping db orderId now s],
            nextShippingId := db.nextShippingId + 1 }

/-- The database-failure oracle of a run: `fail k = true` means the `k`-th SQL
statement issued during the call fails at the driver level. -/
def SqlOracle : Type := Nat → Bool

/-- A healthy database: no SQL statement fails. -/
def noFail : SqlOracle := fun _ => false

/-- Exactly the `n`-th SQL statement fails. -/
def failOnly (n : Nat) : SqlOracle := fun k => k == n

theorem noFail_eq (k : Nat) : noFail k = false := rfl

/-! ### Read-side repository functions

Each returns its result together with the next SQL-statement index.  A
driver-level failure is checked first (a query that fails never reports
`sql.ErrNoRows`); `sql.ErrNoRows` then maps to the repository's `NotFound`
classification, per the Go `if err == sql.ErrNoRows` branches. -/

/-- `userRepository.GetByID`: one `SELECT ... FROM users WHERE id = $1`;
`sql.ErrNoRows` becomes a not-found error, other errors internal. -/
def userRepository.GetByID (fail : SqlOracle) (k : Nat) (db : DB) (id : Int) :
    Except AppError User × Nat :=
  if fail k then (.error NewInternalError, k + 1)
  else
    match db.findUser id with
    | none => (.error (NewNotFoundError "User" id), k + 1)
    | some u => (.ok u, k + 1)

/-- `productRepository.FindByID`: one `SELECT ... FROM products ... WHERE p.id = $1`. -/
def productRepository.FindByID (fail : SqlOracle) (k : Nat) (db : DB) (id : Int) :
    Except AppError Product × Nat :=
  if fail k then (.error NewInternalError, k + 1)
  else
    match db.findProduct id with
    | none => (.error (NewNotFoundError "Product" id), k + 1)
    | some p => (.ok p, k + 1)

/-- `orderRepository.GetOrderItems`: one query returning every `order_items`
row of the order (the joined product snapshot is elided). -/
def orderRepository.GetOrderItems (fail : SqlOracle) (k : Nat) (db : DB) (orderId : Int) :
    Except AppError (List OrderItem) × Nat :=
  if fail k then (.error NewInternalError, k + 1)
  else (.ok (db.orderItems.filter (fun it => it.orderId == orderId)), k + 1)

/-- `orderRepository.GetShippingInfo`: one query; `sql.ErrNoRows` becomes
`NewNotFoundError "ShippingInfo"`. -/
def orderRepository.GetShippingInfo (fail : SqlOracle) (k : Nat) (db : DB) (orderId : Int) :
    Except AppError ShippingInfo × Nat :=
  if fail k then (.error NewInternalError, k + 1)
  else
    match db.findShipping orderId with
    | none => (.error (NewNotFoundError "ShippingInfo" orderId), k + 1)
    | some s => (.ok s, k + 1)

/-- `orderRepository.FindByID`: the order+user join (a missing user row makes
the `LEFT JOIN` produce NULL columns, which `Scan` rejects — an internal
error), then `GetOrderItems`, then `GetShippingInfo` whose `NotFound` is
absorbed leaving the zero-valued shipping struct. -/
def orderRepository.FindByID (fail : SqlOracle) (k : Nat) (db : DB) (id : Int) :
    Except AppError Order × Nat :=
  if fail k then (.error NewInternalError, k + 1)
  else
    match db.findOrder id with
    | none => (.error (NewNotFoundError "Order" id), k + 1)
    | some row =>
      match db.findUser row.userId with
      | none => (.error NewInternalError, k + 1)
      | some u =>
        match orderRepository.GetOrderItems fail (k + 1) db id with
        | (.error e, k') => (.error e, k')
        | (.ok items, k') =>
          let order : Order :=
            { id := row.id, userId := row.userId, user := u, status := row.status
              totalAmount := row.totalAmount, items := items
              paymentMethod := row.paymentMethod
              createdAt := row.createdAt, updatedAt := row.updatedAt }
          match orderRepository.GetShippingInfo fail k' db id with
          | (.error e, k'') =>
            if e.kind == .notFound then (.ok order, k'') else (.error e, k'')
          | (.ok s, k'') => (.ok { order with shippingInfo := s }, k'')

/-- `orderUseCase.GetOrderWithDetails`: `FindByID`, then re-reads the items,
then the shipping info (its own `NotFound` again absorbed). -/
def orderUseCase.GetOrderWithDetails (fail : SqlOracle) (k : Nat) (db : DB) (id : Int) :
    Except AppError Order × Nat :=
  match orderRepository.FindByID fail k db id with
  | (.error e, k') => (.error e, k')
  | (.ok order, k') =>
    match orderRepository.GetOrderItems fail k' db id with
    | (.error e, k'') => (.error e, k'')
    | (.ok items, k'') =>
      let order1 : Order := { order with items := items }
      match orderRepository.GetShippingInfo fail k'' db id with
      | (.error e, k3) =>
        if e.kind == .notFound then (.ok order1, k3) else (.error e, k3)
      | (.ok s, k3) => (.ok { order1 with shippingInfo := s }, k3)

/-! ### `orderRepository.Create` — the order-creation transaction

The transaction body maps a scratch `DB` to either a final `DB` (published by
`Commit`) or an error (in which case the caller's `DB` is kept: the explicit
rollbacks and the abandoned-transaction `return`s of the Go code both leave
the store untouched).  SQL statements, in issue order: the `orders` insert,
then per item the `order_items` insert and the conditional stock decrement,
then the optional `shipping_info` insert, then `COMMIT`. -/

/-- Per-item loop of the transaction: insert the item row, decrement the
product's stock `RETURNING stock`, abort with the insufficient-stock
bad-request error if the returned stock is negative. -/
def orderRepository.createLoop (fail : SqlOracle) (k : Nat) (db : DB) (now : Int)
    (orderId : Int) (items : List OrderItem) :
    Except AppError (DB × List OrderItem) × Nat :=
  match items with
  | [] => (.ok (db, []), k)
  | item :: rest =>
    if fail k then (.error NewInternalError, k + 1)
    else
      let newItem : OrderItem := insertedItem db orderId now item
      let db1 : DB := db.insertItemRow orderId now item
      if fail (k + 1) then (.error NewInternalError, k + 2)
      else
        match db1.findProduct item.productId with
        | none => (.error NewInternalError, k + 2)
        | some p =>
          let newStock := p.stock - item.quantity
          let db2 := db1.decrementStock item.productId item.quantity now
          if newStock < 0 then
            (.error (NewBadRequestError
              ("Insufficient stock for product ID: " ++ toString item.productId)), k + 2)
          else
            match orderRepository.createLoop fail (k + 2) db2 now orderId rest with
            | (.error e, k') => (.error e, k')
            | (.ok (db3, items'), k') => (.ok (db3, newItem :: items'), k')

/-- Transaction body of `orderRepository.Create` (between `BeginTx` and the
publication decision), ending with the `COMMIT` statement. -/
def orderRepository.createTx (fail : SqlOracle) (k : Nat) (db : DB) (now : Int)
    (order : Order) : Except AppError (DB × Order) × Nat :=
  if fail k then (.error NewInternalError, k + 1)
  else
    let order1 : Order :=
      { order with id := db.nextOrderId, createdAt := now, updatedAt := now }
    let db1 : DB := db.insertOrderRow now order
    match orderRepository.createLoop fail (k + 1) db1 now order1.id order.items with
    | (.error e, k') => (.error e, k')
    | (.ok (db2, items'), k') =>
      let order2 : Order := { order1 with items := items' }
      if order.shippingInfo.address == "" then
        if fail k' then (.error NewInternalError, k' + 1)
        else (.ok (db2, order2), k' + 1)
      else
        if fail k' then (.error NewInternalError, k' + 1)
        else
          let ship : ShippingInfo := insertedShipping db2 order1.id now order.shippingInfo
          let db3 : DB := db2.insertShippingRow order1.id now order.shippingInfo
          let order3 : Order := { order2 with shippingInfo := ship }
          if fail (k' + 1) then (.error NewInternalError, k' + 2)
          else (.ok (db3, order3), k' + 2)

/-- `orderRepository.Create`: `BeginTx` (statement `k`), run the transaction
body, publish on success, keep the caller's store on any failure. -/
def orderRepository.Create (fail : SqlOracle) (k : Nat) (db : DB) (now : Int)
    (order : Order) : DB × Except AppError Order :=
  if fail k then (db, .error NewInternalError)
  else
    match orderRepository.createTx fail (k + 1) db now order with
    | (.ok (db', order'), _) => (db', .ok order')
    | (.error e, _) => (db, .error e)

/-! ### `orderUseCase.Create` -/

/-- Validation/pricing loop of `orderUseCase.Create`: resolve each product
(missing → bad request naming the product id), fast-fail on insufficient
stock, record the product's current price (the DTO price is never read), and
accumulate `price * quantity` into the total. -/
def orderUseCase.createItemsLoop (fail : SqlOracle) (k : Nat) (db : DB)
    (dtos : List OrderItemCreateDTO) :
    Except AppError (List OrderItem × Rat) × Nat :=
  match dtos with
  | [] => (.ok ([], 0), k)
  | dto :: rest =>
    match productRepository.FindByID fail k db dto.productId with
    | (.error _, k') =>
      (.error (NewBadRequestError ("Invalid product ID: " ++ toString dto.productId)), k')
    | (.ok product, k') =>
      if product.stock < dto.quantity then
        (.error (NewBadRequestError ("Insufficient stock for product: " ++ product.name)), k')
      else
        match orderUseCase.createItemsLoop fail k' db rest with
        | (.error e, k'') => (.error e, k'')
        | (.ok (items, total), k'') =>
          (.ok ({ productId := dto.productId, quantity := dto.quantity,
                  price := product.price } :: items,
                product.price * (dto.quantity : Rat) + total), k'')

/-- `orderUseCase.Create`: buyer lookup (any failure rebranded
`"Invalid user ID"`), empty-items check, the validation/pricing loop, then
the repository transaction. -/
def orderUseCase.Create (fail : SqlOracle) (k : Nat) (db : DB) (now : Int)
    (createDTO : OrderCreateDTO) : DB × Except AppError Order :=
  match userRepository.GetByID fail k db createDTO.userId with
  | (.error _, _) => (db, .error (NewBadRequestError "Invalid user ID"))
  | (.ok user, k1) =>
    if createDTO.items.length == 0 then
      (db, .error (NewBadRequestError "Order must have at least one item"))
    else
      match orderUseCase.createItemsLoop fail k1 db createDTO.items with
      | (.error e, _) => (db, .error e)
      | (.ok (orderItems, totalAmount), k2) =>
        let order : Order :=
          { userId := createDTO.userId, status := .pending
            totalAmount := totalAmount, items := orderItems
            paymentMethod := createDTO.paymentMethod
            shippingInfo :=
              { address := createDTO.shippingInfo.address
                city := createDTO.shippingInfo.city
                state := createDTO.shippingInfo.state
                country := createDTO.shippingInfo.country
                postalCode := createDTO.shippingInfo.postalCode
                phoneNumber := createDTO.shippingInfo.phoneNumber }
            user := user }
        orderRepository.Create fail k2 db now order

/-! ### `orderRepository.AddOrderItem`

Transaction, statements in order: order-exists query, product-stock query
(`sql.ErrNoRows` → product `NotFound`), pre-decrement stock comparison, item
insert, unconditional stock decrement (`ExecContext`, no `RETURNING`, no
floor check), order-total increment by the caller-supplied
`price * quantity`, `COMMIT`. -/

/-- Transaction body of `AddOrderItem`, from the first query through `COMMIT`. -/
def orderRepository.addOrderItemTx (fail : SqlOracle) (k : Nat) (db : DB) (now : Int)
    (item : OrderItem) : Except AppError (DB × OrderItem) × Nat :=
  if fail k then (.error NewInternalError, k + 1)
  else if (db.findOrder item.orderId).isSome = false then
    (.error (NewNotFoundError "Order" item.orderId), k + 1)
  else if fail (k + 1) then (.error NewInternalError, k + 2)
  else
    match db.findProduct item.productId with
    | none => (.error (NewNotFoundError "Product" item.productId), k + 2)
    | some p =>
      if p.stock < item.quantity then
        (.error (NewBadRequestError "Insufficient stock"), k + 2)
      else if fail (k + 2) then (.error NewInternalError, k + 3)
      else
        let newItem : OrderItem := insertedItem db item.orderId now item
        let db1 : DB := db.insertItemRow item.orderId now item
        if fail (k + 3) then (.error NewInternalError, k + 4)
        else
          let db2 := db1.decrementStock item.productId item.quantity now
          if fail (k + 4) then (.error NewInternalError, k + 5)
          else
            let db3 : DB :=
              { db2 with orders := db2.orders.map (fun o =>
                  if o.id == item.orderId then
                    { o with
                      totalAmount := o.totalAmount + item.price * (item.quantity : Rat)
                      updatedAt := now }
                  else o) }
            if fail (k + 5) then (.error NewInternalError, k + 6)
            else (.ok (db3, newItem), k + 6)

/-- `orderRepository.AddOrderItem`: `BeginTx` (statement `k`), the transaction
body, publication only on commit. -/
def orderRepository.AddOrderItem (fail : SqlOracle) (k : Nat) (db : DB) (now : Int)
    (item : OrderItem) : DB × Except AppError OrderItem :=
  if fail k then (db, .error NewInternalError)
  else
    match orderRepository.addOrderItemTx fail (k + 1) db now item with
    | (.ok (db', item'), _) => (db', .ok item')
    | (.error e, _) => (db, .error e)

/-! ### `orderRepository.Delete`

Transaction: delete the shipping row(s), then the item rows, then the order
row; `NotFound` (without commit, hence without persisted effect) when the
final delete affects zero rows. -/

/-- Transaction body of `Delete`, from the shipping delete through `COMMIT`. -/
def orderRepository.deleteTx (fail : SqlOracle) (k : Nat) (db : DB) (id : Int) :
    Except AppError DB × Nat :=
  if fail k then (.error NewInternalError, k + 1)
  else
    let db1 : DB :=
      { db with shippingInfo := db.shippingInfo.filter (fun s => !(s.orderId == id)) }
    if fail (k + 1) then (.error NewInternalError, k + 2)
    else
      let db2 : DB :=
        { db1 with orderItems := db1.orderItems.filter (fun it => !(it.orderId == id)) }
      if fail (k + 2) then (.error NewInternalError, k + 3)
      else
        let rowsAffected := (db2.orders.filter (fun o => o.id == id)).length
        let db3 : DB := { db2 with orders := db2.orders.filter (fun o => !(o.id == id)) }
        if rowsAffected == 0 then (.error (NewNotFoundError "Order" id), k + 3)
        else if fail (k + 3) then (.error NewInternalError, k + 4)
        else (.ok db3, k + 4)

/-- `orderRepository.Delete`: `BeginTx` (statement `k`), the transaction body,
publication only on commit. -/
def orderRepository.Delete (fail : SqlOracle) (k : Nat) (db : DB) (id : Int) :
    DB × Except AppError Unit :=
  if fail k then (db, .error NewInternalError)
  else
    match orderRepository.deleteTx fail (k + 1) db id with
    | (.ok db', _) => (db', .ok ())
    | (.error e, _) => (db, .error e)

/-! ### `productRepository.UpdateStock` (standalone stock adjustment)

Not a transaction: one `UPDATE ... SET stock = stock + $1 ... RETURNING
stock`, then — only if the returned value is negative — a second, separate
`UPDATE ... SET stock = stock - $1` to revert (whose own failure is only
logged).  The Go function returns `error` alone: the new stock value is
dropped. -/

def productRepository.UpdateStock (fail : SqlOracle) (k : Nat) (db : DB) (now : Int)
    (id : Int) (quantity : Int) : DB × Except AppError Unit :=
  if fail k then (db, .error NewInternalError)
  else
    match db.findProduct id with
    | none => (db, .error (NewNotFoundError "Product" id))
    | some p =>
      let newStock := p.stock + quantity
      let db1 : DB :=
        { db with products := db.products.map (fun q =>
            if q.id == id then { q with stock := q.stock + quantity, updatedAt := now }
            else q) }
      if newStock < 0 then
        if fail (k + 1) then (db1, .error (NewBadRequestError "Insufficient stock"))
        else
          let db2 : DB :=
            { db1 with products := db1.products.map (fun q =>
                if q.id == id then { q with stock := q.stock - quantity } else q) }
          (db2, .error (NewBadRequestError "Insufficient stock"))
      else (db1, .ok ())

/-- `productUseCase.UpdateStock` forwards to the repository unchanged. -/
def productUseCase.UpdateStock (fail : SqlOracle) (k : Nat) (db : DB) (now : Int)
    (id : Int) (quantity : Int) : DB × Except AppError Unit :=
  productRepository.UpdateStock fail k db now id quantity

/-- Modelled from the spec: §4.3 asks the standalone stock update to
"atomically add the delta to stock and return the new value"; the returned
payload is the post-update stock count.  (The repository's Go signature
returns only `error` — this definition exists to compare the spec's contract
with the source's.) -/
def updateStockSpec (db : DB) (now : Int) (id : Int) (quantity : Int) :
    DB × Except AppError Int :=
  match db.findProduct id with
  | none => (db, .error (NewNotFoundError "Product" id))
  | some p =>
    let newStock := p.stock + quantity
    if newStock < 0 then (db, .error (NewBadRequestError "Insufficient stock"))
    else
      let db1 : DB :=
        { db with products := db.products.map (fun q =>
            if q.id == id then { q with stock := q.stock + quantity, updatedAt := now }
            else q) }
      (db1, .ok newStock)

/-! ### Helper lemmas on table lookups -/

/-- The unit price a line item gets: the price of the product currently in
the `products` table. -/
def priceOf (db : DB) (pid : Int) : Rat :=
  ((db.findProduct pid).map Product.price).getD 0

/-- The in-memory `OrderItem` the use case builds from a DTO: the client
price is discarded in favour of the product's current price. -/
def mkPendingItem (db : DB) (d : OrderItemCreateDTO) : OrderItem :=
  { productId := d.productId, quantity := d.quantity, price := priceOf db d.productId }

/-- The persisted columns of an item row a claim inspects. -/
def itemCols (it : OrderItem) : Int × Int × Rat :=
  (it.productId, it.quantity, it.price)

@[simp] theorem insertItemRow_users (db : DB) (orderId now : Int) (item : OrderItem) :
    (db.insertItemRow orderId now item).users = db.users := rfl

@[simp] theorem insertItemRow_products (db : DB) (orderId now : Int) (item : OrderItem) :
    (db.insertItemRow orderId now item).products = db.products := rfl

@[simp] theorem insertItemRow_orders (db : DB) (orderId now : Int) (item : OrderItem) :
    (db.insertItemRow orderId now item).orders = db.orders := rfl

@[simp] theorem insertItemRow_shippingInfo (db : DB) (orderId now : Int) (item : OrderItem) :
    (db.insertItemRow orderId now item).shippingInfo = db.shippingInfo := rfl

@[simp] theorem insertItemRow_orderItems (db : DB) (orderId now : Int) (item : OrderItem) :
    (db.insertItemRow orderId now item).orderItems
      = db.orderItems ++ [insertedItem db orderId now item] := rfl

@[simp] theorem insertItemRow_nextOrderId (db : DB) (orderId now : Int) (item : OrderItem) :
    (db.insertItemRow orderId now item).nextOrderId = db.nextOrderId := rfl

@[simp] theorem insertItemRow_nextShippingId (db : DB) (orderId now : Int) (item : OrderItem) :
    (db.insertItemRow orderId now item).nextShippingId = db.nextShippingId := rfl

@[simp] theorem findProduct_insertItemRow (db : DB) (orderId now pid : Int) (item : OrderItem) :
    (db.insertItemRow orderId now item).findProduct pid = db.findProduct pid := rfl

@[simp] theorem findOrder_insertItemRow (db : DB) (orderId now pid : Int) (item : OrderItem) :
    (db.insertItemRow orderId now item).findOrder pid = db.findOrder pid := rfl

@[simp] theorem insertOrderRow_users (db : DB) (now : Int) (order : Order) :
    (db.insertOrderRow now order).users = db.users := rfl

@[simp] theorem insertOrderRow_products (db : DB) (now : Int) (order : Order) :
    (db.insertOrderRow now order).products = db.products := rfl

@[simp] theorem insertOrderRow_orders (db : DB) (now : Int) (order : Order) :
    (db.insertOrderRow now order).orders = db.orders ++ [insertedOrderRow db now order] := rfl

@[simp] theorem insertOrderRow_orderItems (db : DB) (now : Int) (order : Order) :
    (db.insertOrderRow now order).orderItems = db.orderItems := rfl

@[simp] theorem insertOrderRow_shippingInfo (db : DB) (now : Int) (order : Order) :
    (db.insertOrderRow now order).shippingInfo = db.shippingInfo := rfl

@[simp] theorem insertOrderRow_nextOrderItemId (db : DB) (now : Int) (order : Order) :
    (db.insertOrderRow now order).nextOrderItemId = db.nextOrderItemId := rfl

@[simp] theorem insertOrderRow_nextShippingId (db : DB) (now : Int) (order : Order) :
    (db.insertOrderRow now order).nextShippingId = db.nextShippingId := rfl

@[simp] theorem findProduct_insertOrderRow (db : DB) (now pid : Int) (order : Order) :
    (db.insertOrderRow now order).findProduct pid = db.findProduct pid := rfl

@[simp] theorem insertShippingRow_users (db : DB) (orderId now : Int) (s : ShippingInfo) :
    (db.insertShippingRow orderId now s).users = db.users := rfl

@[simp] theorem insertShippingRow_products (db : DB) (orderId now : Int) (s : ShippingInfo) :
    (db.insertShippingRow orderId now s).products = db.products := rfl

@[simp] theorem insertShippingRow_orders (db : DB) (orderId now : Int) (s : ShippingInfo) :
    (db.insertShippingRow orderId now s).orders = db.orders := rfl

@[simp] theorem insertShippingRow_orderItems (db : DB) (orderId now : Int) (s : ShippingInfo) :
    (db.insertShippingRow orderId now s).orderItems = db.orderItems := rfl

@[simp] theorem findProduct_insertShippingRow (db : DB) (orderId now pid : Int)
    (s : ShippingInfo) :
    (db.insertShippingRow orderId now s).findProduct pid = db.findProduct pid := rfl

@[simp] theorem decrementStock_users (db : DB) (pid qty now : Int) :
    (db.decrementStock pid qty now).users = db.users := rfl

@[simp] theorem decrementStock_orders (db : DB) (pid qty now : Int) :
    (db.decrementStock pid qty now).orders = db.orders := rfl

@[simp] theorem decrementStock_orderItems (db : DB) (pid qty now : Int) :
    (db.decrementStock pid qty now).orderItems = db.orderItems := rfl

@[simp] theorem decrementStock_shippingInfo (db : DB) (pid qty now : Int) :
    (db.decrementStock pid qty now).shippingInfo = db.shippingInfo := rfl

@[simp] theorem decrementStock_nextOrderId (db : DB) (pid qty now : Int) :
    (db.decrementStock pid qty now).nextOrderId = db.nextOrderId := rfl

@[simp] theorem decrementStock_nextOrderItemId (db : DB) (pid qty now : Int) :
    (db.decrementStock pid qty now).nextOrderItemId = db.nextOrderItemId := rfl

@[simp] theorem decrementStock_nextShippingId (db : DB) (pid qty now : Int) :
    (db.decrementStock pid qty now).nextShippingId = db.nextShippingId := rfl

theorem find?_map_of_pred {α : Type} (f : α → α) (p : α → Bool)
    (hp : ∀ a, p (f a) = p a) :
    ∀ l : List α, (l.map f).find? p = (l.find? p).map f := by
  intro l
  induction l with
  | nil => rfl
  | cons a t ih =>
    by_cases h : p a
    · rw [List.map_cons, List.find?_cons_of_pos _ ((hp a).trans h),
        List.find?_cons_of_pos _ h, Option.map_some']
    · rw [List.map_cons, List.find?_cons_of_neg _ (by rw [hp a]; exact h),
        List.find?_cons_of_neg _ h, ih]

theorem find?_filter_not {α : Type} (p : α → Bool) :
    ∀ l : List α, (l.filter (fun x => !(p x))).find? p = none := by
  intro l
  induction l with
  | nil => rfl
  | cons a t ih =>
    by_cases h : p a
    · simp [List.filter_cons, h, ih]
    · simp [List.filter_cons, h, List.find?_cons_of_neg, ih]

/-- Stock decrement seen through `findProduct`: the per-row update function
preserves ids, so lookup commutes with the update. -/
theorem findProduct_decrementStock (db : DB) (pid qty now pid' : Int) :
    (db.decrementStock pid qty now).findProduct pid'
      = (db.findProduct pid').map (fun q =>
          if q.id == pid then { q with stock := q.stock - qty, updatedAt := now } else q) := by
  unfold DB.decrementStock DB.findProduct
  exact find?_map_of_pred _ _ (fun a => by by_cases h : a.id == pid <;> simp [h]) _

theorem findProduct_decrementStock_ne (db : DB) (pid qty now pid' : Int)
    (h : pid' ≠ pid) :
    (db.decrementStock pid qty now).findProduct pid' = db.findProduct pid' := by
  rw [findProduct_decrementStock]
  cases hf : db.findProduct pid' with
  | none => rfl
  | some q =>
    have hq : q.id = pid' := by
      have := List.find?_some hf
      simpa using this
    simp [hq, h]

theorem findProduct_decrementStock_self (db : DB) (pid qty now : Int) (p : Product)
    (h : db.findProduct pid = some p) :
    (db.decrementStock pid qty now).findProduct pid
      = some { p with stock := p.stock - qty, updatedAt := now } := by
  rw [findProduct_decrementStock, h]
  have hq : p.id = pid := by
    have := List.find?_some h
    simpa using this
  simp [hq]

/-! ### Lemmas about the use-case item loop -/

/-- Happy path of the item-validation loop: every product resolves with
enough stock, so the loop prices the items from the product table and sums
`price * quantity`. -/
theorem createItemsLoop_ok (db : DB) :
    ∀ (dtos : List OrderItemCreateDTO) (k : Nat),
    (∀ d ∈ dtos, ∃ p, db.findProduct d.productId = some p ∧ d.quantity ≤ p.stock) →
    orderUseCase.createItemsLoop noFail k db dtos
      = (.ok (dtos.map (mkPendingItem db),
              (dtos.map (fun d => priceOf db d.productId * (d.quantity : Rat))).sum),
         k + dtos.length) := by
  intro dtos
  induction dtos with
  | nil => intro k _; simp [orderUseCase.createItemsLoop]
  | cons d rest ih =>
    intro k h
    obtain ⟨p, hp, hq⟩ := h d (by simp)
    have hrest := fun d' hd' => h d' (List.mem_cons_of_mem _ hd')
    have hnlt : ¬(p.stock < d.quantity) := Int.not_lt.mpr hq
    have hpe : priceOf db d.productId = p.price := by simp [priceOf, hp]
    have hmk : mkPendingItem db d
        = { productId := d.productId, quantity := d.quantity, price := p.price } := by
      simp [mkPendingItem, hpe]
    simp only [orderUseCase.createItemsLoop, productRepository.FindByID, noFail,
      Bool.false_eq_true, if_false, hp, if_neg hnlt, ih (k + 1) hrest,
      List.map_cons, List.sum_cons, List.length_cons, hmk, hpe, Prod.mk.injEq,
      Except.ok.injEq, true_and]
    omega

/-- Every error the item-validation loop produces is a bad-request
(`InvalidInput`) error. -/
theorem createItemsLoop_error_kind (db : DB) :
    ∀ (dtos : List OrderItemCreateDTO) (k : Nat) (e : AppError) (k' : Nat),
    orderUseCase.createItemsLoop noFail k db dtos = (.error e, k') →
    e.kind = .invalidInput := by
  intro dtos
  induction dtos with
  | nil => intro k e k' h; simp [orderUseCase.createItemsLoop] at h
  | cons d rest ih =>
    intro k e k' h
    cases hfp : db.findProduct d.productId with
    | none =>
      simp only [orderUseCase.createItemsLoop, productRepository.FindByID, noFail,
        Bool.false_eq_true, if_false, hfp, Prod.mk.injEq, Except.error.injEq] at h
      rw [← h.1]
      rfl
    | some p =>
      by_cases hlt : p.stock < d.quantity
      · simp only [orderUseCase.createItemsLoop, productRepository.FindByID, noFail,
          Bool.false_eq_true, if_false, hfp, if_pos hlt, Prod.mk.injEq,
          Except.error.injEq] at h
        rw [← h.1]
        rfl
      · cases hrec : orderUseCase.createItemsLoop noFail (k + 1) db rest with
        | mk r krec =>
          cases r with
          | error e' =>
            simp only [orderUseCase.createItemsLoop, productRepository.FindByID, noFail,
              Bool.false_eq_true, if_false, hfp, if_neg hlt, hrec, Prod.mk.injEq,
              Except.error.injEq] at h
            exact h.1 ▸ ih (k + 1) e' krec hrec
          | ok r' =>
            simp only [orderUseCase.createItemsLoop, productRepository.FindByID, noFail,
              Bool.false_eq_true, if_false, hfp, if_neg hlt, hrec] at h
            cases r' with
            | mk items total => simp at h

/-- If the item-validation loop succeeds then every requested item resolved
to a product with stock at least its quantity. -/
theorem createItemsLoop_ok_all (db : DB) :
    ∀ (dtos : List OrderItemCreateDTO) (k : Nat) r (k' : Nat),
    orderUseCase.createItemsLoop noFail k db dtos = (.ok r, k') →
    ∀ d ∈ dtos, ∃ p, db.findProduct d.productId = some p ∧ d.quantity ≤ p.stock := by
  intro dtos
  induction dtos with
  | nil => intro k r k' _ d hd; simp at hd
  | cons d0 rest ih =>
    intro k r k' h d hd
    cases hfp : db.findProduct d0.productId with
    | none =>
      simp only [orderUseCase.createItemsLoop, productRepository.FindByID, noFail,
        Bool.false_eq_true, if_false, hfp] at h
      simp at h
    | some p =>
      by_cases hlt : p.stock < d0.quantity
      · simp only [orderUseCase.createItemsLoop, productRepository.FindByID, noFail,
          Bool.false_eq_true, if_false, hfp, if_pos hlt] at h
        simp at h
      · cases hrec : orderUseCase.createItemsLoop noFail (k + 1) db rest with
        | mk r1 krec =>
          cases r1 with
          | error e' =>
            simp only [orderUseCase.createItemsLoop, productRepository.FindByID, noFail,
              Bool.false_eq_true, if_false, hfp, if_neg hlt, hrec] at h
            simp at h
          | ok r1' =>
            rcases List.mem_cons.mp hd with rfl | hd'
            · exact ⟨p, hfp, Int.not_lt.mp hlt⟩
            · exact ih (k + 1) r1' krec hrec d hd'

/-! ### Lemmas about the transaction's per-item loop -/

/-- Happy path of the in-transaction item loop when the requested products
are pairwise distinct and each has sufficient stock: the loop succeeds,
touches only the `order_items` and `products` tables, appends one row per
item (same product/quantity/price columns), and decrements each referenced
product's stock by exactly its quantity. -/
theorem createLoop_ok (now orderId : Int) :
    ∀ (items : List OrderItem) (db : DB) (k : Nat),
    (∀ it ∈ items, ∃ p, db.findProduct it.productId = some p ∧ it.quantity ≤ p.stock) →
    (items.map OrderItem.productId).Nodup →
    ∃ db' items' k'',
      orderRepository.createLoop noFail k db now orderId items = (.ok (db', items'), k'') ∧
      db'.users = db.users ∧
      db'.orders = db.orders ∧
      db'.shippingInfo = db.shippingInfo ∧
      db'.nextOrderId = db.nextOrderId ∧
      db'.nextShippingId = db.nextShippingId ∧
      db'.orderItems.map itemCols = db.orderItems.map itemCols ++ items.map itemCols ∧
      (∀ it ∈ items, (db'.findProduct it.productId).map Product.stock
          = (db.findProduct it.productId).map (fun p => p.stock - it.quantity)) ∧
      (∀ pid : Int, pid ∉ items.map OrderItem.productId →
          db'.findProduct pid = db.findProduct pid) := by
  intro items
  induction items with
  | nil =>
    intro db k _ _
    exact ⟨db, [], k, by simp [orderRepository.createLoop], rfl, rfl, rfl, rfl, rfl,
      by simp, by simp, fun pid _ => rfl⟩
  | cons item rest ih =>
    intro db k h hnd
    obtain ⟨p, hp, hq⟩ := h item (by simp)
    rw [List.map_cons, List.nodup_cons] at hnd
    obtain ⟨hnotmem, hndrest⟩ := hnd
    have hns : ¬(p.stock - item.quantity < 0) := by omega
    have hp1 : (db.insertItemRow orderId now item).findProduct item.productId = some p := hp
    set db2 : DB :=
      (db.insertItemRow orderId now item).decrementStock item.productId item.quantity now
      with hdb2def
    have hdb2find : db2.findProduct item.productId
        = some { p with stock := p.stock - item.quantity, updatedAt := now } :=
      findProduct_decrementStock_self _ item.productId item.quantity now p hp1
    have hmemne : ∀ it ∈ rest, it.productId ≠ item.productId := by
      intro it hit hcontra
      exact hnotmem (hcontra ▸ List.mem_map_of_mem OrderItem.productId hit)
    have hdb2same : ∀ it ∈ rest, db2.findProduct it.productId = db.findProduct it.productId := by
      intro it hit
      rw [hdb2def, findProduct_decrementStock_ne _ _ _ _ _ (hmemne it hit),
        findProduct_insertItemRow]
    have hrest : ∀ it ∈ rest, ∃ q, db2.findProduct it.productId = some q ∧
        it.quantity ≤ q.stock := by
      intro it hit
      obtain ⟨q, hq1, hq2⟩ := h it (List.mem_cons_of_mem _ hit)
      exact ⟨q, (hdb2same it hit).trans hq1, hq2⟩
    obtain ⟨db', items', k'', heq, hus, hor, hsh, hno, hns2, hitems, hstock, hpres⟩ :=
      ih db2 (k + 2) hrest hndrest
    refine ⟨db', insertedItem db orderId now item :: items', k'',
      ?_, ?_, ?_, ?_, ?_, ?_, ?_, ?_, ?_⟩
    · simp only [orderRepository.createLoop, noFail, Bool.false_eq_true, if_false, hp1,
        ← hdb2def, if_neg hns, heq]
    · rw [hus, hdb2def]; simp
    · rw [hor, hdb2def]; simp
    · rw [hsh, hdb2def]; simp
    · rw [hno, hdb2def]; simp
    · rw [hns2, hdb2def]; simp
    · rw [hitems, hdb2def]
      simp [itemCols, insertedItem]
    · intro it hit
      rcases List.mem_cons.mp hit with rfl | hit'
      · rw [hpres it.productId hnotmem, hdb2find, hp]
        rfl
      · rw [hstock it hit', hdb2same it hit']
    · intro pid hpid
      rw [List.map_cons, List.mem_cons] at hpid
      push_neg at hpid
      rw [hpres pid hpid.2, hdb2def,
        findProduct_decrementStock_ne _ _ _ _ _ hpid.1, findProduct_insertItemRow]

/-- Happy path of the whole create transaction: order row inserted (with the
workflow-computed total, untouched by the transaction), item rows inserted,
stock decremented, optional shipping row inserted, commit. -/
theorem createTx_ok (db : DB) (now : Int) (order : Order) (k : Nat)
    (h : ∀ it ∈ order.items, ∃ p, db.findProduct it.productId = some p ∧
      it.quantity ≤ p.stock)
    (hnd : (order.items.map OrderItem.productId).Nodup) :
    ∃ db' order' k',
      orderRepository.createTx noFail k db now order = (.ok (db', order'), k') ∧
      order'.totalAmount = order.totalAmount ∧
      db'.orders = db.orders ++ [insertedOrderRow db now order] ∧
      db'.orderItems.map itemCols = db.orderItems.map itemCols ++ order.items.map itemCols ∧
      (∀ it ∈ order.items, (db'.findProduct it.productId).map Product.stock
          = (db.findProduct it.productId).map (fun p => p.stock - it.quantity)) := by
  have h1 : ∀ it ∈ order.items, ∃ p,
      (db.insertOrderRow now order).findProduct it.productId = some p ∧
      it.quantity ≤ p.stock := by simpa using h
  obtain ⟨db2, items', k'', heq, hus, hor, hsh, hno, hns2, hitems, hstock, hpres⟩ :=
    createLoop_ok now db.nextOrderId order.items (db.insertOrderRow now order) (k + 1) h1 hnd
  by_cases haddr : order.shippingInfo.address = ""
  · have haddr' : (order.shippingInfo.address == "") = true := by simp [haddr]
    refine ⟨db2,
      { order with
          id := db.nextOrderId
          createdAt := now
          updatedAt := now
          items := items' },
      k'' + 1, ?_, rfl, ?_, ?_, ?_⟩
    · simp only [orderRepository.createTx, noFail, Bool.false_eq_true, if_false, heq, haddr']
      rfl
    · rw [hor]; simp
    · rw [hitems]; simp
    · intro it hit
      rw [hstock it hit]
      simp
  · have haddr' : (order.shippingInfo.address == "") = false := by
      simpa using haddr
    refine ⟨db2.insertShippingRow db.nextOrderId now order.shippingInfo,
      { order with
          id := db.nextOrderId
          createdAt := now
          updatedAt := now
          items := items'
          shippingInfo := insertedShipping db2 db.nextOrderId now order.shippingInfo },
      k'' + 2, ?_, rfl, ?_, ?_, ?_⟩
    · simp only [orderRepository.createTx, noFail, Bool.false_eq_true, if_false, heq, haddr']
    · rw [insertShippingRow_orders, hor]; simp
    · rw [insertShippingRow_orderItems, hitems]; simp
    · intro it hit
      rw [findProduct_insertShippingRow, hstock it hit]
      simp

/-- Happy path of the whole create-order workflow (use case plus repository
transaction), for requests whose items reference pairwise-distinct existing
products, each with stock at least the requested quantity. -/
theorem orderUseCase_Create_ok (db : DB) (now : Int) (dto : OrderCreateDTO)
    (hu : ∃ u, db.findUser dto.userId = some u)
    (hne : dto.items ≠ [])
    (hprod : ∀ d ∈ dto.items, ∃ p, db.findProduct d.productId = some p ∧
      d.quantity ≤ p.stock)
    (hnd : (dto.items.map OrderItemCreateDTO.productId).Nodup) :
    ∃ db' o,
      orderUseCase.Create noFail 0 db now dto = (db', .ok o) ∧
      o.totalAmount
        = (dto.items.map (fun d => priceOf db d.productId * (d.quantity : Rat))).sum ∧
      db'.orders = db.orders ++
        [{ id := db.nextOrderId, userId := dto.userId, status := .pending,
           totalAmount :=
             (dto.items.map (fun d => priceOf db d.productId * (d.quantity : Rat))).sum,
           paymentMethod := dto.paymentMethod, createdAt := now, updatedAt := now }] ∧
      db'.orderItems.map itemCols = db.orderItems.map itemCols
        ++ dto.items.map (fun d => (d.productId, d.quantity, priceOf db d.productId)) ∧
      (∀ d ∈ dto.items, (db'.findProduct d.productId).map Product.stock
          = (db.findProduct d.productId).map (fun p => p.stock - d.quantity)) := by
  obtain ⟨u, hufind⟩ := hu
  have hlen : (dto.items.length == 0) = false := by simpa using hne
  have hloop := createItemsLoop_ok db dto.items 1 hprod
  set orderLit : Order :=
    { userId := dto.userId
      status := .pending
      totalAmount := (dto.items.map (fun d => priceOf db d.productId * (d.quantity : Rat))).sum
      items := dto.items.map (mkPendingItem db)
      paymentMethod := dto.paymentMethod
      shippingInfo :=
        { address := dto.shippingInfo.address
          city := dto.shippingInfo.city
          state := dto.shippingInfo.state
          country := dto.shippingInfo.country
          postalCode := dto.shippingInfo.postalCode
          phoneNumber := dto.shippingInfo.phoneNumber }
      user := u } with horderLit
  have hitems_hyp : ∀ it ∈ orderLit.items, ∃ p,
      db.findProduct it.productId = some p ∧ it.quantity ≤ p.stock := by
    intro it hit
    rw [horderLit] at hit
    simp only [List.mem_map] at hit
    obtain ⟨d, hd, rfl⟩ := hit
    simpa [mkPendingItem] using hprod d hd
  have hnd' : (orderLit.items.map OrderItem.productId).Nodup := by
    rw [horderLit]
    simp only [List.map_map]
    exact hnd
  obtain ⟨db', order', k', htx, htot, hor, hitems, hstock⟩ :=
    createTx_ok db now orderLit (1 + dto.items.length + 1) hitems_hyp hnd'
  refine ⟨db', order', ?_, ?_, ?_, ?_, ?_⟩
  · simp only [orderUseCase.Create, userRepository.GetByID, noFail, Bool.false_eq_true,
      if_false, hufind, hlen, hloop, orderRepository.Create, htx]
  · exact htot
  · rw [hor]
    rfl
  · rw [hitems, horderLit]
    simp only [List.map_map]
    rfl
  · intro d hd
    have := hstock (mkPendingItem db d)
      (by rw [horderLit]; exact List.mem_map_of_mem (mkPendingItem db) hd)
    simpa [mkPendingItem] using this

/-! ### Error-path lemmas for `orderUseCase.Create` -/

/-- Any failing run of `orderUseCase.Create` under a healthy database leaves
the store untouched and reports an `InvalidInput` classification. -/
theorem orderUseCase_Create_error (db : DB) (now : Int) (dto : OrderCreateDTO)
    (h : db.findUser dto.userId = none ∨ dto.items = [] ∨
      (∃ d ∈ dto.items, db.findProduct d.productId = none) ∨
      (∃ d ∈ dto.items, ∃ p, db.findProduct d.productId = some p ∧ p.stock < d.quantity)) :
    ∃ e, orderUseCase.Create noFail 0 db now dto = (db, .error e) ∧
      e.kind = .invalidInput := by
  cases hu0 : db.findUser dto.userId with
  | none =>
    exact ⟨NewBadRequestError "Invalid user ID",
      by simp only [orderUseCase.Create, userRepository.GetByID, noFail, Bool.false_eq_true,
        if_false, hu0], rfl⟩
  | some u =>
    by_cases hemp : dto.items = []
    · have hlen : (dto.items.length == 0) = true := by simp [hemp]
      exact ⟨NewBadRequestError "Order must have at least one item",
        by simp only [orderUseCase.Create, userRepository.GetByID, noFail, Bool.false_eq_true,
          if_false, hu0, hlen, if_true], rfl⟩
    · have hlen : (dto.items.length == 0) = false := by simpa using hemp
      cases hloop : orderUseCase.createItemsLoop noFail 1 db dto.items with
      | mk r kr =>
        cases r with
        | error e =>
          refine ⟨e, ?_, createItemsLoop_error_kind db dto.items 1 e kr hloop⟩
          simp only [orderUseCase.Create, userRepository.GetByID, noFail, Bool.false_eq_true,
            if_false, hu0, hlen, hloop]
        | ok r' =>
          exfalso
          have hall := createItemsLoop_ok_all db dto.items 1 r' kr hloop
          rcases h with h | h | ⟨d, hd, hmiss⟩ | ⟨d, hd, p, hp, hlt⟩
          · rw [hu0] at h; exact Option.noConfusion h
          · exact hemp h
          · obtain ⟨q, hq, _⟩ := hall d hd
            rw [hmiss] at hq; exact Option.noConfusion hq
          · obtain ⟨q, hq, hle⟩ := hall d hd
            rw [hp] at hq
            cases hq
            omega

/-! ## Claim C1

The spec claims: any create-order request whose every line item references an
existing product with stock at least that item's quantity (with an existing
buyer) succeeds, with total `Σ price × quantity`, per-item recorded price the
product's current price, per-product stock decrement, one order row and N
item rows.

As stated the claim is false: two line items may reference the *same*
product, each passing the per-item pre-check, while the in-transaction
running decrement drives the stock negative and aborts
(`C1_counterexample`).  The amended claim additionally requires the
referenced products to be pairwise distinct (`C1_create_order_success`). -/

def userC1 : User := { id := 1 }

def dbC1 : DB :=
  { users := [userC1],
    products := [{ id := 1, name := "P1", price := 10, stock := 5 },
                 { id := 2, name := "P2", price := 2, stock := 4 }] }

def dtoC1 : OrderCreateDTO :=
  { userId := 1, items := [⟨1, 3, 999⟩, ⟨2, 4, 123⟩], paymentMethod := "paypal",
    shippingInfo := { address := "a" } }

/-- Input refuting C1 as stated: both items reference product 1, each with
quantity 3 ≤ stock 5. -/
def dtoC1x : OrderCreateDTO :=
  { userId := 1, items := [⟨1, 3, 0⟩, ⟨1, 3, 0⟩], paymentMethod := "paypal",
    shippingInfo := { address := "a" } }

/-- C1 (counterexample): every hypothesis of the claim holds of `dbC1` and
`dtoC1x` — the buyer exists, the item list is non-empty, and each line item
references an existing product whose stock (5) is at least the requested
quantity (3) — yet `Create` fails (with the in-transaction insufficient-stock
abort), so the claim as stated is false. -/
theorem C1_counterexample :
    (∃ u, dbC1.findUser dtoC1x.userId = some u) ∧
    dtoC1x.items ≠ [] ∧
    (∀ d ∈ dtoC1x.items, ∃ p, dbC1.findProduct d.productId = some p ∧
      d.quantity ≤ p.stock) ∧
    (orderUseCase.Create noFail 0 dbC1 0 dtoC1x).2
      = .error (NewBadRequestError "Insufficient stock for product ID: 1") := by
  refine ⟨⟨userC1, rfl⟩, by decide, ?_, by rfl⟩
  intro d hd
  have : d = (⟨1, 3, 0⟩ : OrderItemCreateDTO) ∨ d = (⟨1, 3, 0⟩ : OrderItemCreateDTO) := by
    simpa [dtoC1x] using hd
  rcases this with rfl | rfl <;>
    exact ⟨{ id := 1, name := "P1", price := 10, stock := 5 }, rfl, by decide⟩

/-- C1 (amended: the line items must reference pairwise-distinct products):
`Create` succeeds; the order's total is `Σ (current price × quantity)`; the
persisted item rows record the product's current price (the DTO's
client-supplied price never enters the store); each referenced product's
stock drops by exactly its requested quantity; and exactly one order row
plus N item rows are added. -/
theorem C1_create_order_success (db : DB) (now : Int) (dto : OrderCreateDTO)
    (hu : ∃ u, db.findUser dto.userId = some u)
    (hne : dto.items ≠ [])
    (hprod : ∀ d ∈ dto.items, ∃ p, db.findProduct d.productId = some p ∧
      d.quantity ≤ p.stock)
    (hnd : (dto.items.map OrderItemCreateDTO.productId).Nodup) :
    ∃ db' o,
      orderUseCase.Create noFail 0 db now dto = (db', .ok o) ∧
      o.totalAmount
        = (dto.items.map (fun d => priceOf db d.productId * (d.quantity : Rat))).sum ∧
      db'.orders = db.orders ++
        [{ id := db.nextOrderId, userId := dto.userId, status := .pending,
           totalAmount :=
             (dto.items.map (fun d => priceOf db d.productId * (d.quantity : Rat))).sum,
           paymentMethod := dto.paymentMethod, createdAt := now, updatedAt := now }] ∧
      db'.orders.length = db.orders.length + 1 ∧
      db'.orderItems.map itemCols = db.orderItems.map itemCols
        ++ dto.items.map (fun d => (d.productId, d.quantity, priceOf db d.productId)) ∧
      db'.orderItems.length = db.orderItems.length + dto.items.length ∧
      (∀ d ∈ dto.items, (db'.findProduct d.productId).map Product.stock
          = (db.findProduct d.productId).map (fun p => p.stock - d.quantity)) := by
  obtain ⟨db', o, heq, htot, hor, hitems, hstock⟩ :=
    orderUseCase_Create_ok db now dto hu hne hprod hnd
  refine ⟨db', o, heq, htot, hor, ?_, hitems, ?_, hstock⟩
  · rw [hor]; simp
  · have := congrArg List.length hitems
    simpa using this

/-- C1 witness: a concrete two-item request (distinct products 1 and 2,
prices 10 and 2, quantities 3 and 4) yields total 38, stocks 2 and 0, one
order row and two item rows; the client prices 999 and 123 are ignored. -/
theorem C1_witness :
    ∃ db' o,
      orderUseCase.Create noFail 0 dbC1 7 dtoC1 = (db', .ok o) ∧
      o.totalAmount
        = (dtoC1.items.map (fun d => priceOf dbC1 d.productId * (d.quantity : Rat))).sum ∧
      db'.orders = dbC1.orders ++
        [{ id := dbC1.nextOrderId, userId := dtoC1.userId, status := .pending,
           totalAmount :=
             (dtoC1.items.map (fun d => priceOf dbC1 d.productId * (d.quantity : Rat))).sum,
           paymentMethod := dtoC1.paymentMethod, createdAt := 7, updatedAt := 7 }] ∧
      db'.orders.length = dbC1.orders.length + 1 ∧
      db'.orderItems.map itemCols = dbC1.orderItems.map itemCols
        ++ dtoC1.items.map (fun d => (d.productId, d.quantity, priceOf dbC1 d.productId)) ∧
      db'.orderItems.length = dbC1.orderItems.length + dtoC1.items.length ∧
      (∀ d ∈ dtoC1.items, (db'.findProduct d.productId).map Product.stock
          = (dbC1.findProduct d.productId).map (fun p => p.stock - d.quantity)) := by
  refine C1_create_order_success dbC1 7 dtoC1 ⟨userC1, rfl⟩ (by decide) ?_ (by decide)
  intro d hd
  have : d = (⟨1, 3, 999⟩ : OrderItemCreateDTO) ∨ d = (⟨2, 4, 123⟩ : OrderItemCreateDTO) := by
    simpa [dtoC1] using hd
  rcases this with rfl | rfl
  · exact ⟨{ id := 1, name := "P1", price := 10, stock := 5 }, rfl, by decide⟩
  · exact ⟨{ id := 2, name := "P2", price := 2, stock := 4 }, rfl, by decide⟩

/-! ## Claim C5 -/

/-- C5: if the buyer is missing, or the item list is empty, or some
referenced product is missing, or some requested quantity exceeds that
product's current stock, then `orderUseCase.Create` fails with an
`InvalidInput` classification (in particular never `NotFound`) and the store
is returned exactly as it was — zero persisted side effects. -/
theorem C5_create_invalid_input (db : DB) (now : Int) (dto : OrderCreateDTO)
    (h : db.findUser dto.userId = none ∨ dto.items = [] ∨
      (∃ d ∈ dto.items, db.findProduct d.productId = none) ∨
      (∃ d ∈ dto.items, ∃ p, db.findProduct d.productId = some p ∧ p.stock < d.quantity)) :
    ∃ e, orderUseCase.Create noFail 0 db now dto = (db, .error e) ∧
      e.kind = .invalidInput ∧ e.kind ≠ .notFound := by
  obtain ⟨e, heq, hkind⟩ := orderUseCase_Create_error db now dto h
  exact ⟨e, heq, hkind, by rw [hkind]; exact fun hc => ErrKind.noConfusion hc⟩

def dbC5 : DB :=
  { users := [{ id := 1 }],
    products := [{ id := 1, name := "P1", price := 10, stock := 5 }] }

/-- C5 witness: four concrete failing requests — unknown buyer 9, empty item
list, unknown product 8, and quantity 10 against stock 5 — each rejected as
`InvalidInput` with the store unchanged. -/
theorem C5_witness :
    (∃ e, orderUseCase.Create noFail 0 dbC5 0
        { userId := 9, items := [⟨1, 1, 0⟩], paymentMethod := "paypal", shippingInfo := {} }
        = (dbC5, .error e) ∧ e.kind = .invalidInput ∧ e.kind ≠ .notFound) ∧
    (∃ e, orderUseCase.Create noFail 0 dbC5 0
        { userId := 1, items := [], paymentMethod := "paypal", shippingInfo := {} }
        = (dbC5, .error e) ∧ e.kind = .invalidInput ∧ e.kind ≠ .notFound) ∧
    (∃ e, orderUseCase.Create noFail 0 dbC5 0
        { userId := 1, items := [⟨8, 1, 0⟩], paymentMethod := "paypal", shippingInfo := {} }
        = (dbC5, .error e) ∧ e.kind = .invalidInput ∧ e.kind ≠ .notFound) ∧
    (∃ e, orderUseCase.Create noFail 0 dbC5 0
        { userId := 1, items := [⟨1, 10, 0⟩], paymentMethod := "paypal", shippingInfo := {} }
        = (dbC5, .error e) ∧ e.kind = .invalidInput ∧ e.kind ≠ .notFound) := by
  refine ⟨?_, ?_, ?_, ?_⟩
  · exact C5_create_invalid_input dbC5 0 _ (Or.inl rfl)
  · exact C5_create_invalid_input dbC5 0 _ (Or.inr (Or.inl rfl))
  · exact C5_create_invalid_input dbC5 0 _
      (Or.inr (Or.inr (Or.inl ⟨⟨8, 1, 0⟩, by decide, rfl⟩)))
  · exact C5_create_invalid_input dbC5 0 _
      (Or.inr (Or.inr (Or.inr ⟨⟨1, 10, 0⟩, by decide,
        { id := 1, name := "P1", price := 10, stock := 5 }, rfl, by decide⟩)))

/-! ## Claim C9 -/

/-- C9: the create workflow never rejects a non-positive quantity — for a
request whose single line item has quantity ≤ 0 against an existing product
with non-negative stock (and an existing buyer), the stock pre-check
`stock < quantity` passes and creation succeeds; the resulting stock is
`stock - quantity` (a strict increase by `|quantity|` when the quantity is
negative) and the order total is `price × quantity` (negative when the
quantity is negative and the price positive). -/
theorem C9_nonpositive_quantity (db : DB) (now : Int) (dto : OrderCreateDTO)
    (d : OrderItemCreateDTO) (p : Product) (u : User)
    (hitems : dto.items = [d])
    (hq : d.quantity ≤ 0)
    (hu : db.findUser dto.userId = some u)
    (hp : db.findProduct d.productId = some p)
    (hs : 0 ≤ p.stock) :
    ∃ db' o, orderUseCase.Create noFail 0 db now dto = (db', .ok o) ∧
      (db'.findProduct d.productId).map Product.stock = some (p.stock - d.quantity) ∧
      o.totalAmount = p.price * (d.quantity : Rat) ∧
      (d.quantity < 0 → p.stock < p.stock - d.quantity) ∧
      (d.quantity < 0 → 0 < p.price → o.totalAmount < 0) := by
  obtain ⟨db', o, heq, htot, _, hitems2, hstock⟩ :=
    orderUseCase_Create_ok db now dto ⟨u, hu⟩ (by rw [hitems]; exact List.cons_ne_nil d [])
      (by rw [hitems]; intro d' hd'; rw [List.mem_singleton] at hd'; subst hd'
          exact ⟨p, hp, hq.trans hs⟩)
      (by rw [hitems]; simp)
  have hpe : priceOf db d.productId = p.price := by simp [priceOf, hp]
  have htot' : o.totalAmount = p.price * (d.quantity : Rat) := by
    rw [htot, hitems]
    simp [hpe]
  refine ⟨db', o, heq, ?_, htot', fun hneg => by omega, fun hneg hpos => ?_⟩
  · have := hstock d (by rw [hitems]; exact List.mem_singleton_self d)
    rw [this, hp]
    rfl
  · rw [htot']
    have hcast : (d.quantity : Rat) < 0 := by exact_mod_cast hneg
    exact mul_neg_of_pos_of_neg hpos hcast

def dbC9 : DB :=
  { users := [{ id := 1 }],
    products := [{ id := 1, name := "P1", price := 10, stock := 5 }] }

def dtoC9 : OrderCreateDTO :=
  { userId := 1, items := [⟨1, -2, 0⟩], paymentMethod := "paypal",
    shippingInfo := { address := "a" } }

/-- C9 witness: quantity −2 against stock 5 is accepted; the stock rises to
7 and the order total is −20. -/
theorem C9_witness :
    ∃ db' o, orderUseCase.Create noFail 0 dbC9 0 dtoC9 = (db', .ok o) ∧
      (db'.findProduct 1).map Product.stock = some (5 - (-2)) ∧
      o.totalAmount = 10 * ((-2 : Int) : Rat) ∧
      ((-2 : Int) < 0 → (5 : Int) < 5 - (-2)) ∧
      ((-2 : Int) < 0 → (0 : Rat) < 10 → o.totalAmount < 0) :=
  C9_nonpositive_quantity dbC9 0 dtoC9 ⟨1, -2, 0⟩
    { id := 1, name := "P1", price := 10, stock := 5 } { id := 1 }
    rfl (by decide) rfl rfl (by decide)

/-! ### Rollback and error-classification lemmas for the create transaction -/

/-- Whatever fails inside `orderRepository.Create` — under any pattern of
database-level statement failures — the published store is the caller's
store: no write of the transaction survives. -/
theorem create_error_rollback (fail : SqlOracle) (k : Nat) (db : DB) (now : Int)
    (order : Order) (e : AppError)
    (h : (orderRepository.Create fail k db now order).2 = .error e) :
    (orderRepository.Create fail k db now order).1 = db := by
  unfold orderRepository.Create at h ⊢
  by_cases hf : fail k
  · simp [hf]
  · simp only [hf, Bool.false_eq_true, if_false] at h ⊢
    cases htx : orderRepository.createTx fail (k + 1) db now order with
    | mk r k' =>
      cases r with
      | ok v =>
        rw [htx] at h
        cases v with | mk a b => exact Except.noConfusion h
      | error e' => rfl

/-- Every error produced by the per-item loop of the create transaction is
either the internal-error wrapper or the insufficient-stock bad request
naming a product id. -/
theorem createLoop_error_shape :
    ∀ (items : List OrderItem) (fail : SqlOracle) (k : Nat) (db : DB) (now orderId : Int)
      (e : AppError) (k' : Nat),
    orderRepository.createLoop fail k db now orderId items = (.error e, k') →
    e = NewInternalError ∨
      ∃ pid : Int,
        e = NewBadRequestError ("Insufficient stock for product ID: " ++ toString pid) := by
  intro items
  induction items with
  | nil => intro fail k db now orderId e k' h; simp [orderRepository.createLoop] at h
  | cons item rest ih =>
    intro fail k db now orderId e k' h
    by_cases h0 : fail k
    · simp only [orderRepository.createLoop, h0, if_true, Prod.mk.injEq,
        Except.error.injEq] at h
      exact Or.inl h.1.symm
    · by_cases h1 : fail (k + 1)
      · simp only [orderRepository.createLoop, h0, h1, Bool.false_eq_true, if_false,
          if_true, Prod.mk.injEq, Except.error.injEq] at h
        exact Or.inl h.1.symm
      · cases hfp : (db.insertItemRow orderId now item).findProduct item.productId with
        | none =>
          simp only [orderRepository.createLoop, h0, h1, Bool.false_eq_true, if_false,
            hfp, Prod.mk.injEq, Except.error.injEq] at h
          exact Or.inl h.1.symm
        | some p =>
          by_cases hns : p.stock - item.quantity < 0
          · simp only [orderRepository.createLoop, h0, h1, Bool.false_eq_true, if_false,
              hfp, if_pos hns, Prod.mk.injEq, Except.error.injEq] at h
            exact Or.inr ⟨item.productId, h.1.symm⟩
          · cases hrec : orderRepository.createLoop fail (k + 2)
              ((db.insertItemRow orderId now item).decrementStock item.productId
                item.quantity now) now orderId rest with
            | mk r kr =>
              cases r with
              | error e2 =>
                simp only [orderRepository.createLoop, h0, h1, Bool.false_eq_true, if_false,
                  hfp, if_neg hns, hrec, Prod.mk.injEq, Except.error.injEq] at h
                exact h.1 ▸ ih fail (k + 2) _ now orderId e2 kr hrec
              | ok v =>
                cases v with
                | mk a b =>
                  simp only [orderRepository.createLoop, h0, h1, Bool.false_eq_true,
                    if_false, hfp, if_neg hns, hrec] at h
                  simp at h

/-- Every error produced by the whole create transaction body has the same
two-kind shape. -/
theorem createTx_error_shape (fail : SqlOracle) (k : Nat) (db : DB) (now : Int)
    (order : Order) (e : AppError) (k' : Nat)
    (h : orderRepository.createTx fail k db now order = (.error e, k')) :
    e = NewInternalError ∨
      ∃ pid : Int,
        e = NewBadRequestError ("Insufficient stock for product ID: " ++ toString pid) := by
  by_cases h0 : fail k
  · simp only [orderRepository.createTx, h0, if_true, Prod.mk.injEq,
      Except.error.injEq] at h
    exact Or.inl h.1.symm
  · cases hloop : orderRepository.createLoop fail (k + 1) (db.insertOrderRow now order) now
      ({ order with id := db.nextOrderId, createdAt := now, updatedAt := now } : Order).id
      order.items with
    | mk r kr =>
      cases r with
      | error e2 =>
        simp only [orderRepository.createTx, h0, Bool.false_eq_true, if_false, hloop,
          Prod.mk.injEq, Except.error.injEq] at h
        exact h.1 ▸ createLoop_error_shape order.items fail (k + 1) _ now _ e2 kr hloop
      | ok v =>
        cases v with
        | mk db2 items' =>
          by_cases haddr : (order.shippingInfo.address == "") = true
          · by_cases hc : fail kr
            · simp only [orderRepository.createTx, h0, Bool.false_eq_true, if_false, hloop,
                haddr, if_true, hc, Prod.mk.injEq, Except.error.injEq] at h
              exact Or.inl h.1.symm
            · simp only [orderRepository.createTx, h0, Bool.false_eq_true, if_false, hloop,
                haddr, if_true, hc] at h
              simp at h
          · have haddr' : (order.shippingInfo.address == "") = false := by
              simpa using haddr
            by_cases hc : fail kr
            · simp only [orderRepository.createTx, h0, Bool.false_eq_true, if_false, hloop,
                haddr', hc, if_true, Prod.mk.injEq, Except.error.injEq] at h
              exact Or.inl h.1.symm
            · by_cases hc2 : fail (kr + 1)
              · simp only [orderRepository.createTx, h0, Bool.false_eq_true, if_false,
                  hloop, haddr', hc, hc2, if_true, Prod.mk.injEq, Except.error.injEq] at h
                exact Or.inl h.1.symm
              · simp only [orderRepository.createTx, h0, Bool.false_eq_true, if_false,
                  hloop, haddr', hc, hc2] at h
                simp at h

/-! ## Claim C2 -/

/-- C2: whenever the order-creation transactional unit fails — under any
pattern of database-level failures, including the in-transaction
insufficient-stock abort — the resulting store is exactly the caller's
store: no order row, no item rows, no shipping row and no stock change
persist. -/
theorem C2_create_atomic_rollback (fail : SqlOracle) (k : Nat) (db : DB) (now : Int)
    (order : Order) (e : AppError)
    (h : (orderRepository.Create fail k db now order).2 = .error e) :
    (orderRepository.Create fail k db now order).1 = db ∧
    ((orderRepository.Create fail k db now order).1).orders = db.orders ∧
    ((orderRepository.Create fail k db now order).1).orderItems = db.orderItems ∧
    ((orderRepository.Create fail k db now order).1).shippingInfo = db.shippingInfo ∧
    ((orderRepository.Create fail k db now order).1).products = db.products := by
  have hdb := create_error_rollback fail k db now order e h
  exact ⟨hdb, by rw [hdb], by rw [hdb], by rw [hdb], by rw [hdb]⟩

def dbC2 : DB :=
  { users := [{ id := 1 }],
    products := [{ id := 1, name := "P1", price := 10, stock := 1 }] }

def orderC2 : Order :=
  { userId := 1, status := .pending, totalAmount := 50,
    items := [{ productId := 1, quantity := 5, price := 10 }],
    paymentMethod := "paypal", shippingInfo := { address := "a" } }

/-- C2 witness: a concrete run hitting the in-transaction insufficient-stock
abort (quantity 5 against stock 1) publishes the original store. -/
theorem C2_witness :
    (orderRepository.Create noFail 0 dbC2 0 orderC2).1 = dbC2 ∧
    ((orderRepository.Create noFail 0 dbC2 0 orderC2).1).orders = dbC2.orders ∧
    ((orderRepository.Create noFail 0 dbC2 0 orderC2).1).orderItems = dbC2.orderItems ∧
    ((orderRepository.Create noFail 0 dbC2 0 orderC2).1).shippingInfo = dbC2.shippingInfo ∧
    ((orderRepository.Create noFail 0 dbC2 0 orderC2).1).products = dbC2.products :=
  C2_create_atomic_rollback noFail 0 dbC2 0 orderC2
    (NewBadRequestError "Insufficient stock for product ID: 1") (by rfl)

/-! ## Claim C6 -/

/-- C6: every failure of the order-creation transaction is classified —
the returned error is either the internal-error wrapper (database-level
failure) or the insufficient-stock bad request naming a product id
(`InvalidInput`); no raw storage error escapes; and in both cases the
transaction rolls back, leaving the store unchanged. -/
theorem C6_create_error_classification (fail : SqlOracle) (k : Nat) (db : DB) (now : Int)
    (order : Order) (e : AppError)
    (h : (orderRepository.Create fail k db now order).2 = .error e) :
    (e = NewInternalError ∨
      ∃ pid : Int,
        e = NewBadRequestError ("Insufficient stock for product ID: " ++ toString pid)) ∧
    (e.kind = .internal ∨ e.kind = .invalidInput) ∧
    (orderRepository.Create fail k db now order).1 = db := by
  have hdb := create_error_rollback fail k db now order e h
  have hshape : e = NewInternalError ∨
      ∃ pid : Int,
        e = NewBadRequestError ("Insufficient stock for product ID: " ++ toString pid) := by
    unfold orderRepository.Create at h
    by_cases hf : fail k
    · simp only [hf, if_true] at h
      exact Or.inl ((Except.error.inj h).symm)
    · simp only [hf, Bool.false_eq_true, if_false] at h
      cases htx : orderRepository.createTx fail (k + 1) db now order with
      | mk r k' =>
        rw [htx] at h
        cases r with
        | ok v => cases v with | mk a b => simp at h
        | error e' =>
          simp only [Except.error.injEq] at h
          exact h ▸ createTx_error_shape fail (k + 1) db now order e' k' htx
  refine ⟨hshape, ?_, hdb⟩
  rcases hshape with rfl | ⟨pid, rfl⟩
  · exact Or.inl rfl
  · exact Or.inr rfl

def dbC6 : DB :=
  { users := [{ id := 2 }],
    products := [{ id := 3, name := "P3", price := 4, stock := 2 }] }

def orderC6 : Order :=
  { userId := 2, status := .pending, totalAmount := 12,
    items := [{ productId := 3, quantity := 3, price := 4 }],
    paymentMethod := "paypal", shippingInfo := { address := "b" } }

/-- C6 witness: the concrete insufficient-stock failure (quantity 3 against
stock 2) is classified `InvalidInput` with the store unchanged. -/
theorem C6_witness :
    ((NewBadRequestError "Insufficient stock for product ID: 3" = NewInternalError) ∨
      ∃ pid : Int, NewBadRequestError "Insufficient stock for product ID: 3"
        = NewBadRequestError ("Insufficient stock for product ID: " ++ toString pid)) ∧
    ((NewBadRequestError "Insufficient stock for product ID: 3").kind = .internal ∨
      (NewBadRequestError "Insufficient stock for product ID: 3").kind = .invalidInput) ∧
    (orderRepository.Create noFail 0 dbC6 0 orderC6).1 = dbC6 :=
  C6_create_error_classification noFail 0 dbC6 0 orderC6
    (NewBadRequestError "Insufficient stock for product ID: 3") (by rfl)

/-! ### Lemmas about `orderRepository.AddOrderItem` -/

/-- The store a successful `AddOrderItem` run commits: item row appended,
product stock decremented, order total incremented by the caller-supplied
`price * quantity`. -/
def addItemResultDB (db : DB) (now : Int) (item : OrderItem) : DB :=
  let db2 := (db.insertItemRow item.orderId now item).decrementStock item.productId
    item.quantity now
  { db2 with orders := db2.orders.map (fun o =>
      if o.id == item.orderId then
        { o with
            totalAmount := o.totalAmount + item.price * (item.quantity : Rat)
            updatedAt := now }
      else o) }

@[simp] theorem addItemResultDB_orderItems (db : DB) (now : Int) (item : OrderItem) :
    (addItemResultDB db now item).orderItems
      = db.orderItems ++ [insertedItem db item.orderId now item] := rfl

@[simp] theorem addItemResultDB_products (db : DB) (now : Int) (item : OrderItem) :
    (addItemResultDB db now item).products
      = ((db.insertItemRow item.orderId now item).decrementStock item.productId
          item.quantity now).products := rfl

theorem addItemResultDB_findProduct_self (db : DB) (now : Int) (item : OrderItem)
    (p : Product) (hp : db.findProduct item.productId = some p) :
    (addItemResultDB db now item).findProduct item.productId
      = some { p with stock := p.stock - item.quantity, updatedAt := now } := by
  have h0 : (addItemResultDB db now item).findProduct item.productId
      = ((db.insertItemRow item.orderId now item).decrementStock item.productId
          item.quantity now).findProduct item.productId := rfl
  have hp0 : (db.insertItemRow item.orderId now item).findProduct item.productId
      = some p := hp
  rw [h0, findProduct_decrementStock_self _ _ _ _ p hp0]

theorem addItemResultDB_findProduct_ne (db : DB) (now : Int) (item : OrderItem)
    (pid : Int) (hne : pid ≠ item.productId) :
    (addItemResultDB db now item).findProduct pid = db.findProduct pid := by
  have : (addItemResultDB db now item).findProduct pid
      = ((db.insertItemRow item.orderId now item).decrementStock item.productId
          item.quantity now).findProduct pid := rfl
  rw [this, findProduct_decrementStock_ne _ _ _ _ _ hne, findProduct_insertItemRow]

theorem addItemResultDB_findOrder (db : DB) (now : Int) (item : OrderItem) (oid : Int) :
    (addItemResultDB db now item).findOrder oid
      = (db.findOrder oid).map (fun o =>
          if o.id == item.orderId then
            { o with
                totalAmount := o.totalAmount + item.price * (item.quantity : Rat)
                updatedAt := now }
          else o) := by
  unfold addItemResultDB DB.findOrder
  exact find?_map_of_pred _ _ (fun o => by by_cases h : o.id == item.orderId <;> simp [h]) _

theorem addItemResultDB_findOrder_self (db : DB) (now : Int) (item : OrderItem)
    (row : OrderRow) (ho : db.findOrder item.orderId = some row) :
    (addItemResultDB db now item).findOrder item.orderId
      = some { row with
               totalAmount := row.totalAmount + item.price * (item.quantity : Rat)
               updatedAt := now } := by
  rw [addItemResultDB_findOrder, ho]
  have hid : row.id = item.orderId := by
    have := List.find?_some ho
    simpa using this
  simp [hid]

/-- Happy path of `AddOrderItem`: the order exists, the product exists with
sufficient stock, and the transaction commits the three writes. -/
theorem addOrderItem_ok (db : DB) (now : Int) (item : OrderItem) (k : Nat)
    (ho : (db.findOrder item.orderId).isSome = true)
    (p : Product) (hp : db.findProduct item.productId = some p)
    (hq : ¬(p.stock < item.quantity)) :
    orderRepository.AddOrderItem noFail k db now item
      = (addItemResultDB db now item, .ok (insertedItem db item.orderId now item)) := by
  simp only [orderRepository.AddOrderItem, orderRepository.addOrderItemTx, noFail,
    Bool.false_eq_true, if_false, ho, Bool.true_eq_false, hp, if_neg hq]
  rfl

/-- Any failing run of `AddOrderItem` publishes the caller's store. -/
theorem addOrderItem_error_rollback (fail : SqlOracle) (k : Nat) (db : DB) (now : Int)
    (item : OrderItem) (e : AppError)
    (h : (orderRepository.AddOrderItem fail k db now item).2 = .error e) :
    (orderRepository.AddOrderItem fail k db now item).1 = db := by
  unfold orderRepository.AddOrderItem at h ⊢
  by_cases hf : fail k
  · simp [hf]
  · simp only [hf, Bool.false_eq_true, if_false] at h ⊢
    cases htx : orderRepository.addOrderItemTx fail (k + 1) db now item with
    | mk r k' =>
      cases r with
      | ok v =>
        rw [htx] at h
        cases v with | mk a b => exact Except.noConfusion h
      | error e' => rfl

/-! ## Claim C3 -/

/-- C3: `AddOrderItem` fails `NotFound` when the order is missing; fails
`NotFound` when the product is missing; fails `InvalidInput`
("Insufficient stock") when the product's current stock is below the
requested quantity; on success — in one transactional unit — inserts the
item row, decrements the product's stock by the quantity, and increments the
order's total by the caller-supplied `price × quantity`; and any failure
leaves the store untouched. -/
theorem C3_add_order_item (db : DB) (now : Int) (item : OrderItem) :
    (db.findOrder item.orderId = none →
      orderRepository.AddOrderItem noFail 0 db now item
        = (db, .error (NewNotFoundError "Order" item.orderId))) ∧
    (∀ row, db.findOrder item.orderId = some row →
      db.findProduct item.productId = none →
      orderRepository.AddOrderItem noFail 0 db now item
        = (db, .error (NewNotFoundError "Product" item.productId))) ∧
    (∀ row p, db.findOrder item.orderId = some row →
      db.findProduct item.productId = some p → p.stock < item.quantity →
      orderRepository.AddOrderItem noFail 0 db now item
        = (db, .error (NewBadRequestError "Insufficient stock"))) ∧
    (∀ row p, db.findOrder item.orderId = some row →
      db.findProduct item.productId = some p → ¬(p.stock < item.quantity) →
      orderRepository.AddOrderItem noFail 0 db now item
        = (addItemResultDB db now item, .ok (insertedItem db item.orderId now item)) ∧
      (addItemResultDB db now item).orderItems
        = db.orderItems ++ [insertedItem db item.orderId now item] ∧
      ((addItemResultDB db now item).findProduct item.productId).map Product.stock
        = some (p.stock - item.quantity) ∧
      ((addItemResultDB db now item).findOrder item.orderId).map OrderRow.totalAmount
        = some (row.totalAmount + item.price * (item.quantity : Rat))) ∧
    (∀ fail e, (orderRepository.AddOrderItem fail 0 db now item).2 = .error e →
      (orderRepository.AddOrderItem fail 0 db now item).1 = db) := by
  refine ⟨?_, ?_, ?_, ?_, ?_⟩
  · intro ho
    simp only [orderRepository.AddOrderItem, orderRepository.addOrderItemTx, noFail,
      Bool.false_eq_true, if_false, ho, Option.isSome_none]
    rfl
  · intro row ho hp
    have ho' : (db.findOrder item.orderId).isSome = true := by rw [ho]; rfl
    simp only [orderRepository.AddOrderItem, orderRepository.addOrderItemTx, noFail,
      Bool.false_eq_true, if_false, ho', Bool.true_eq_false, hp]
  · intro row p ho hp hlt
    have ho' : (db.findOrder item.orderId).isSome = true := by rw [ho]; rfl
    simp only [orderRepository.AddOrderItem, orderRepository.addOrderItemTx, noFail,
      Bool.false_eq_true, if_false, ho', Bool.true_eq_false, hp, if_pos hlt]
  · intro row p ho hp hq
    have ho' : (db.findOrder item.orderId).isSome = true := by rw [ho]; rfl
    refine ⟨addOrderItem_ok db now item 0 ho' p hp hq, rfl, ?_, ?_⟩
    · rw [addItemResultDB_findProduct_self db now item p hp]
      rfl
    · rw [addItemResultDB_findOrder_self db now item row ho]
      rfl
  · intro fail e h
    exact addOrderItem_error_rollback fail 0 db now item e h

def dbC3 : DB :=
  { users := [{ id := 1 }],
    orders := [{ id := 1, userId := 1, totalAmount := 30, paymentMethod := "paypal" }],
    products := [{ id := 1, name := "P1", price := 10, stock := 5 }] }

def itemC3 : OrderItem := { orderId := 1, productId := 1, quantity := 2, price := 3 }

/-- C3 witness: against an existing order (total 30) and product (stock 5),
adding quantity 2 at caller price 3 appends the row, leaves stock 3 and
total 36; a missing order id 9 yields `NotFound`; a missing product 8 yields
`NotFound`; quantity 9 yields the insufficient-stock `InvalidInput`. -/
theorem C3_witness :
    (orderRepository.AddOrderItem noFail 0 dbC3 7 itemC3
      = (addItemResultDB dbC3 7 itemC3, .ok (insertedItem dbC3 1 7 itemC3)) ∧
     (addItemResultDB dbC3 7 itemC3).orderItems
       = dbC3.orderItems ++ [insertedItem dbC3 1 7 itemC3] ∧
     ((addItemResultDB dbC3 7 itemC3).findProduct 1).map Product.stock
       = some (5 - 2) ∧
     ((addItemResultDB dbC3 7 itemC3).findOrder 1).map OrderRow.totalAmount
       = some (30 + 3 * ((2 : Int) : Rat))) ∧
    orderRepository.AddOrderItem noFail 0 dbC3 7 { itemC3 with orderId := 9 }
      = (dbC3, .error (NewNotFoundError "Order" 9)) ∧
    orderRepository.AddOrderItem noFail 0 dbC3 7 { itemC3 with productId := 8 }
      = (dbC3, .error (NewNotFoundError "Product" 8)) ∧
    orderRepository.AddOrderItem noFail 0 dbC3 7 { itemC3 with quantity := 9 }
      = (dbC3, .error (NewBadRequestError "Insufficient stock")) := by
  refine ⟨?_, ?_, ?_, ?_⟩
  · exact (C3_add_order_item dbC3 7 itemC3).2.2.2.1
      { id := 1, userId := 1, totalAmount := 30, paymentMethod := "paypal" }
      { id := 1, name := "P1", price := 10, stock := 5 } rfl rfl (by decide)
  · exact (C3_add_order_item dbC3 7 { itemC3 with orderId := 9 }).1 rfl
  · exact (C3_add_order_item dbC3 7 { itemC3 with productId := 8 }).2.1
      { id := 1, userId := 1, totalAmount := 30, paymentMethod := "paypal" } rfl rfl
  · exact (C3_add_order_item dbC3 7 { itemC3 with quantity := 9 }).2.2.1
      { id := 1, userId := 1, totalAmount := 30, paymentMethod := "paypal" }
      { id := 1, name := "P1", price := 10, stock := 5 } rfl rfl (by decide)

/-! ## Claim C8 -/

/-- C8: add-item is not idempotent — running `AddOrderItem` twice with the
same order, product, quantity and price (stock permitting) decrements the
stock by the quantity twice, increments the total by `price × quantity`
twice, and inserts two item rows; the second call never collapses into a
no-op (for a non-zero quantity the stock after two calls differs from the
stock after one). -/
theorem C8_add_item_twice (db : DB) (now : Int) (item : OrderItem)
    (row : OrderRow) (p : Product)
    (ho : db.findOrder item.orderId = some row)
    (hp : db.findProduct item.productId = some p)
    (h1 : item.quantity ≤ p.stock)
    (h2 : 2 * item.quantity ≤ p.stock) :
    orderRepository.AddOrderItem noFail 0 db now item
      = (addItemResultDB db now item, .ok (insertedItem db item.orderId now item)) ∧
    orderRepository.AddOrderItem noFail 0 (addItemResultDB db now item) now item
      = (addItemResultDB (addItemResultDB db now item) now item,
         .ok (insertedItem (addItemResultDB db now item) item.orderId now item)) ∧
    ((addItemResultDB (addItemResultDB db now item) now item).findProduct
        item.productId).map Product.stock = some (p.stock - 2 * item.quantity) ∧
    ((addItemResultDB (addItemResultDB db now item) now item).findOrder
        item.orderId).map OrderRow.totalAmount
      = some (row.totalAmount + 2 * (item.price * (item.quantity : Rat))) ∧
    (addItemResultDB (addItemResultDB db now item) now item).orderItems.length
      = db.orderItems.length + 2 ∧
    (item.quantity ≠ 0 →
      ((addItemResultDB (addItemResultDB db now item) now item).findProduct
          item.productId).map Product.stock
        ≠ ((addItemResultDB db now item).findProduct item.productId).map Product.stock) := by
  have ho' : (db.findOrder item.orderId).isSome = true := by rw [ho]; rfl
  have hq1 : ¬(p.stock < item.quantity) := by omega
  set db1 := addItemResultDB db now item with hdb1
  have hp1 : db1.findProduct item.productId
      = some { p with stock := p.stock - item.quantity, updatedAt := now } :=
    addItemResultDB_findProduct_self db now item p hp
  have ho1 : db1.findOrder item.orderId
      = some { row with
               totalAmount := row.totalAmount + item.price * (item.quantity : Rat)
               updatedAt := now } :=
    addItemResultDB_findOrder_self db now item row ho
  have ho1' : (db1.findOrder item.orderId).isSome = true := by rw [ho1]; rfl
  have hq2 : ¬(({ p with stock := p.stock - item.quantity, updatedAt := now } : Product).stock
      < item.quantity) := by simp; omega
  have hfirst := addOrderItem_ok db now item 0 ho' p hp hq1
  have hsecond := addOrderItem_ok db1 now item 0 ho1' _ hp1 hq2
  have hp2 : (addItemResultDB db1 now item).findProduct item.productId
      = some { p with
               stock := p.stock - item.quantity - item.quantity
               updatedAt := now } :=
    addItemResultDB_findProduct_self db1 now item _ hp1
  have ho2 : (addItemResultDB db1 now item).findOrder item.orderId
      = some { row with
               totalAmount := row.totalAmount + item.price * (item.quantity : Rat)
                 + item.price * (item.quantity : Rat)
               updatedAt := now } :=
    addItemResultDB_findOrder_self db1 now item _ ho1
  refine ⟨hfirst, hsecond, ?_, ?_, ?_, ?_⟩
  · rw [hp2]
    simp only [Option.map_some']
    congr 1
    omega
  · rw [ho2]
    simp only [Option.map_some']
    congr 1
    ring
  · simp [hdb1]
  · intro hnz
    rw [hp2, hp1]
    simp only [Option.map_some', ne_eq, Option.some.injEq]
    omega

def dbC8 : DB :=
  { users := [{ id := 1 }],
    orders := [{ id := 1, userId := 1, totalAmount := 0, paymentMethod := "paypal" }],
    products := [{ id := 1, name := "P1", price := 10, stock := 5 }] }

def itemC8 : OrderItem := { orderId := 1, productId := 1, quantity := 2, price := 10 }

/-- C8 witness: adding (quantity 2, price 10) twice against stock 5 and
total 0 leaves stock 1, total 40, and two item rows — twice the single-call
effect, not once. -/
theorem C8_witness :
    orderRepository.AddOrderItem noFail 0 dbC8 7 itemC8
      = (addItemResultDB dbC8 7 itemC8, .ok (insertedItem dbC8 1 7 itemC8)) ∧
    orderRepository.AddOrderItem noFail 0 (addItemResultDB dbC8 7 itemC8) 7 itemC8
      = (addItemResultDB (addItemResultDB dbC8 7 itemC8) 7 itemC8,
         .ok (insertedItem (addItemResultDB dbC8 7 itemC8) 1 7 itemC8)) ∧
    ((addItemResultDB (addItemResultDB dbC8 7 itemC8) 7 itemC8).findProduct 1).map
        Product.stock = some (5 - 2 * 2) ∧
    ((addItemResultDB (addItemResultDB dbC8 7 itemC8) 7 itemC8).findOrder 1).map
        OrderRow.totalAmount = some (0 + 2 * (10 * ((2 : Int) : Rat))) ∧
    (addItemResultDB (addItemResultDB dbC8 7 itemC8) 7 itemC8).orderItems.length
      = dbC8.orderItems.length + 2 ∧
    ((2 : Int) ≠ 0 →
      ((addItemResultDB (addItemResultDB dbC8 7 itemC8) 7 itemC8).findProduct 1).map
          Product.stock
        ≠ ((addItemResultDB dbC8 7 itemC8).findProduct 1).map Product.stock) :=
  C8_add_item_twice dbC8 7 itemC8
    { id := 1, userId := 1, totalAmount := 0, paymentMethod := "paypal" }
    { id := 1, name := "P1", price := 10, stock := 5 } rfl rfl (by decide) (by decide)

/-! ### Lemmas about `orderRepository.Delete` -/

/-- The store a successful `Delete` run commits: shipping rows, item rows
and the order row of the given order are gone. -/
def deleteResultDB (db : DB) (id : Int) : DB :=
  { db with
    shippingInfo := db.shippingInfo.filter (fun s => !(s.orderId == id)),
    orderItems := db.orderItems.filter (fun it => !(it.orderId == id)),
    orders := db.orders.filter (fun o => !(o.id == id)) }

theorem filter_filter_not {α : Type} (p : α → Bool) (l : List α) :
    (l.filter (fun x => !(p x))).filter p = [] := by
  rw [List.filter_eq_nil_iff]
  intro a ha
  have := (List.mem_filter.mp ha).2
  simp at this
  simp [this]

theorem find?_none_iff_filter_len (p : α → Bool) (l : List α) :
    l.find? p = none ↔ (l.filter p).length = 0 := by
  rw [List.find?_eq_none, List.length_eq_zero, List.filter_eq_nil_iff]

/-- Happy path of `Delete`: the order exists, so the three deletes run and
the transaction commits `deleteResultDB`. -/
theorem delete_ok (db : DB) (id : Int) (k : Nat) (h : db.findOrder id ≠ none) :
    orderRepository.Delete noFail k db id = (deleteResultDB db id, .ok ()) := by
  have hrows : ((db.orders.filter (fun o => o.id == id)).length == 0) = false := by
    rw [Bool.eq_false_iff]
    intro hc
    exact h ((find?_none_iff_filter_len _ _).mpr (by simpa using hc))
  simp only [orderRepository.Delete, orderRepository.deleteTx, noFail, Bool.false_eq_true,
    if_false, hrows]
  rfl

/-- Missing order: the final delete affects zero rows, `Delete` reports
`NotFound`, and (the transaction never committing) the published store is
the caller's. -/
theorem delete_notFound (db : DB) (id : Int) (k : Nat) (h : db.findOrder id = none) :
    orderRepository.Delete noFail k db id = (db, .error (NewNotFoundError "Order" id)) := by
  have hrows : ((db.orders.filter (fun o => o.id == id)).length == 0) = true := by
    simpa using (find?_none_iff_filter_len _ _).mp h
  simp only [orderRepository.Delete, orderRepository.deleteTx, noFail, Bool.false_eq_true,
    if_false, hrows, if_true]

/-- No run of `Delete` — failing or not, under any oracle — touches the
`products` table. -/
theorem delete_products (fail : SqlOracle) (k : Nat) (db : DB) (id : Int) :
    ((orderRepository.Delete fail k db id).1).products = db.products := by
  unfold orderRepository.Delete
  by_cases h0 : fail k
  · simp [h0]
  · simp only [h0, Bool.false_eq_true, if_false]
    cases htx : orderRepository.deleteTx fail (k + 1) db id with
    | mk r k' =>
      cases r with
      | error e => rfl
      | ok db' =>
        have : db'.products = db.products := by
          unfold orderRepository.deleteTx at htx
          by_cases h1 : fail (k + 1)
          · simp [h1] at htx
          · by_cases h2 : fail (k + 1 + 1)
            · simp [h1, h2] at htx
            · by_cases h3 : fail (k + 1 + 2)
              · simp [h1, h2, h3] at htx
              · by_cases hrows : ((db.orders.filter (fun o => o.id == id)).length == 0) = true
                · simp [h1, h2, h3, hrows] at htx
                · by_cases h4 : fail (k + 1 + 3)
                  · simp [h1, h2, h3, hrows, h4] at htx
                  · simp only [h1, h2, h3, hrows, h4, Bool.false_eq_true, if_false,
                      Prod.mk.injEq, Except.ok.injEq] at htx
                    rw [← htx.1]
        exact this

/-! ## Claim C7 -/

/-- C7: `Delete` removes the shipping row(s), the item rows and the order
row in one transactional unit; it fails with `NotFound` exactly when the
order row is absent (so the final delete affects zero rows) — hence deleting
twice yields `NotFound` the second time — and no product's stock is ever
changed by a delete. -/
theorem C7_delete_order (db : DB) (id : Int) :
    ((orderRepository.Delete noFail 0 db id).2 = .error (NewNotFoundError "Order" id)
        ↔ db.findOrder id = none) ∧
    (db.findOrder id = none →
      orderRepository.Delete noFail 0 db id = (db, .error (NewNotFoundError "Order" id))) ∧
    (db.findOrder id ≠ none →
      orderRepository.Delete noFail 0 db id = (deleteResultDB db id, .ok ()) ∧
      (deleteResultDB db id).findOrder id = none ∧
      (deleteResultDB db id).orderItems.filter (fun it => it.orderId == id) = [] ∧
      (deleteResultDB db id).findShipping id = none ∧
      orderRepository.Delete noFail 0 (deleteResultDB db id) id
        = (deleteResultDB db id, .error (NewNotFoundError "Order" id))) ∧
    (∀ fail : SqlOracle, ∀ k : Nat,
      ((orderRepository.Delete fail k db id).1).products = db.products) := by
  have hfo : (deleteResultDB db id).findOrder id = none := find?_filter_not _ _
  refine ⟨?_, fun h => delete_notFound db id 0 h, fun h => ?_, fun fail k => delete_products fail k db id⟩
  · constructor
    · intro herr
      by_cases h : db.findOrder id = none
      · exact h
      · rw [delete_ok db id 0 h] at herr
        exact Except.noConfusion herr
    · intro h
      rw [delete_notFound db id 0 h]
  · exact ⟨delete_ok db id 0 h, hfo, filter_filter_not _ _, find?_filter_not _ _,
      delete_notFound _ id 0 hfo⟩

def dbC7 : DB :=
  { users := [{ id := 1 }],
    products := [{ id := 1, name := "P1", price := 10, stock := 5 }],
    orders := [{ id := 1, userId := 1, totalAmount := 30, paymentMethod := "paypal" }],
    orderItems := [{ id := 1, orderId := 1, productId := 1, quantity := 3, price := 10 }],
    shippingInfo := [{ id := 1, orderId := 1, address := "a" }] }

/-- C7 witness: deleting order 1 removes its item and shipping rows and the
order row, leaves the product table unchanged, and a second delete reports
`NotFound`. -/
theorem C7_witness :
    ((orderRepository.Delete noFail 0 dbC7 1).2 = .error (NewNotFoundError "Order" 1)
        ↔ dbC7.findOrder 1 = none) ∧
    (orderRepository.Delete noFail 0 dbC7 1 = (deleteResultDB dbC7 1, .ok ()) ∧
      (deleteResultDB dbC7 1).findOrder 1 = none ∧
      (deleteResultDB dbC7 1).orderItems.filter (fun it => it.orderId == 1) = [] ∧
      (deleteResultDB dbC7 1).findShipping 1 = none ∧
      orderRepository.Delete noFail 0 (deleteResultDB dbC7 1) 1
        = (deleteResultDB dbC7 1, .error (NewNotFoundError "Order" 1))) ∧
    ((orderRepository.Delete noFail 0 dbC7 1).1).products = dbC7.products :=
  ⟨(C7_delete_order dbC7 1).1,
   (C7_delete_order dbC7 1).2.2.1 (by decide),
   (C7_delete_order dbC7 1).2.2.2 noFail 0⟩

/-! ## Claim C4

The spec claims the standalone stock update "atomically add[s] the delta to
stock and return[s] the new value".  The Go repository and use case both
return only `error`: the post-update stock count never reaches the caller
(`C4_counterexample` exhibits two stores with different resulting stocks and
byte-identical results).  The amended claim drops the returned value; the
add-revert-on-negative behaviour is as specified. -/

def dbC4a : DB := { products := [{ id := 1, name := "P", price := 1, stock := 3 }] }

def dbC4b : DB := { products := [{ id := 1, name := "P", price := 1, stock := 8 }] }

/-- C4 (counterexample): the same delta applied to stores differing only in
the product's stock succeeds with *identical* return values while the
resulting stocks differ (5 vs 10) — so the operation's result does not carry
(and the caller cannot recover) the new stock value, refuting "the new stock
value is returned to the caller". -/
theorem C4_counterexample :
    (productRepository.UpdateStock noFail 0 dbC4a 0 1 2).2
      = (productRepository.UpdateStock noFail 0 dbC4b 0 1 2).2 ∧
    (((productRepository.UpdateStock noFail 0 dbC4a 0 1 2).1).findProduct 1).map
        Product.stock = some 5 ∧
    (((productRepository.UpdateStock noFail 0 dbC4b 0 1 2).1).findProduct 1).map
        Product.stock = some 10 := by
  refine ⟨rfl, by rfl, by rfl⟩

/-- C4 (amended: the operation reports only success or a classified error —
the new stock value is not returned): the signed delta is added to the
product's stock; if the result would be negative the change is reverted —
stock unchanged — and the operation fails with `InvalidInput`
("Insufficient stock"); the use case forwards the repository behaviour
unchanged. -/
theorem C4_update_stock (db : DB) (now : Int) (id quantity : Int) (p : Product)
    (hp : db.findProduct id = some p) :
    (0 ≤ p.stock + quantity →
      (productRepository.UpdateStock noFail 0 db now id quantity).2 = .ok () ∧
      (((productRepository.UpdateStock noFail 0 db now id quantity).1).findProduct id).map
          Product.stock = some (p.stock + quantity)) ∧
    (p.stock + quantity < 0 →
      (productRepository.UpdateStock noFail 0 db now id quantity).2
        = .error (NewBadRequestError "Insufficient stock") ∧
      (NewBadRequestError "Insufficient stock").kind = .invalidInput ∧
      (((productRepository.UpdateStock noFail 0 db now id quantity).1).findProduct id).map
          Product.stock = some p.stock) ∧
    productUseCase.UpdateStock noFail 0 db now id quantity
      = productRepository.UpdateStock noFail 0 db now id quantity := by
  have hid : p.id = id := by
    have := List.find?_some hp
    simpa using this
  have hfind1 : (db.products.map (fun q =>
      if q.id == id then { q with stock := q.stock + quantity, updatedAt := now }
      else q)).find? (fun q => q.id == id)
      = some { p with stock := p.stock + quantity, updatedAt := now } := by
    rw [find?_map_of_pred _ _ (fun a => by by_cases h : a.id == id <;> simp [h]) _]
    unfold DB.findProduct at hp
    rw [hp]
    simp [hid]
  refine ⟨fun hpos => ?_, fun hneg => ?_, rfl⟩
  · have hns : ¬(p.stock + quantity < 0) := by omega
    simp only [productRepository.UpdateStock, noFail, Bool.false_eq_true, if_false, hp,
      if_neg hns]
    refine ⟨by trivial, ?_⟩
    unfold DB.findProduct
    rw [hfind1]
    rfl
  · simp only [productRepository.UpdateStock, noFail, Bool.false_eq_true, if_false, hp,
      if_pos hneg]
    refine ⟨by trivial, by trivial, ?_⟩
    unfold DB.findProduct
    rw [find?_map_of_pred _ _ (fun a => by by_cases h : a.id == id <;> simp [h]) _, hfind1]
    simp only [Option.map_some', Option.some.injEq, hid, beq_self_eq_true, if_true]
    omega

def dbC4w : DB := { products := [{ id := 1, name := "P", price := 1, stock := 5 }] }

/-- C4 witness: delta +3 against stock 5 succeeds leaving stock 8; delta −9
is reverted, leaving stock 5, with the `InvalidInput` "Insufficient stock"
error. -/
theorem C4_witness :
    ((productRepository.UpdateStock noFail 0 dbC4w 0 1 3).2 = .ok () ∧
      (((productRepository.UpdateStock noFail 0 dbC4w 0 1 3).1).findProduct 1).map
          Product.stock = some (5 + 3)) ∧
    ((productRepository.UpdateStock noFail 0 dbC4w 0 1 (-9)).2
        = .error (NewBadRequestError "Insufficient stock") ∧
      (NewBadRequestError "Insufficient stock").kind = .invalidInput ∧
      (((productRepository.UpdateStock noFail 0 dbC4w 0 1 (-9)).1).findProduct 1).map
          Product.stock = some 5) ∧
    productUseCase.UpdateStock noFail 0 dbC4w 0 1 3
      = productRepository.UpdateStock noFail 0 dbC4w 0 1 3 :=
  ⟨(C4_update_stock dbC4w 0 1 3 { id := 1, name := "P", price := 1, stock := 5 } rfl).1
      (by decide),
   (C4_update_stock dbC4w 0 1 (-9) { id := 1, name := "P", price := 1, stock := 5 } rfl).2.1
      (by decide),
   (C4_update_stock dbC4w 0 1 3 { id := 1, name := "P", price := 1, stock := 5 } rfl).2.2⟩

/-! ## Claim C10 -/

/-- C10: reading an order whose shipping record is absent never fails —
both `orderRepository.FindByID` and `orderUseCase.GetOrderWithDetails`
absorb the shipping lookup's `NotFound` and return the order with the
zero-valued shipping struct; a shipping lookup failing with any *other*
error (here a database-level failure injected into exactly that statement)
is propagated. -/
theorem C10_missing_shipping_absorbed (db : DB) (id : Int) (row : OrderRow) (u : User)
    (horder : db.findOrder id = some row)
    (huser : db.findUser row.userId = some u)
    (hship : db.findShipping id = none) :
    (∃ o, (orderRepository.FindByID noFail 0 db id).1 = .ok o ∧
      o.shippingInfo = zeroShippingInfo ∧ o.id = row.id) ∧
    (∃ o, (orderUseCase.GetOrderWithDetails noFail 0 db id).1 = .ok o ∧
      o.shippingInfo = zeroShippingInfo ∧ o.id = row.id) ∧
    (orderRepository.FindByID (failOnly 2) 0 db id).1 = .error NewInternalError ∧
    (orderUseCase.GetOrderWithDetails (failOnly 4) 0 db id).1 = .error NewInternalError := by
  have hemp0 : failOnly 2 0 = false := rfl
  have hemp1 : failOnly 2 1 = false := rfl
  have hemp2 : failOnly 2 2 = true := rfl
  have hf40 : failOnly 4 0 = false := rfl
  have hf41 : failOnly 4 1 = false := rfl
  have hf42 : failOnly 4 2 = false := rfl
  have hf43 : failOnly 4 3 = false := rfl
  have hf44 : failOnly 4 4 = true := rfl
  refine ⟨⟨{ id := row.id
             userId := row.userId
             user := u
             status := row.status
             totalAmount := row.totalAmount
             items := db.orderItems.filter (fun it => it.orderId == id)
             paymentMethod := row.paymentMethod
             createdAt := row.createdAt
             updatedAt := row.updatedAt }, ?_, rfl, rfl⟩,
         ⟨{ id := row.id
            userId := row.userId
            user := u
            status := row.status
            totalAmount := row.totalAmount
            items := db.orderItems.filter (fun it => it.orderId == id)
            paymentMethod := row.paymentMethod
            createdAt := row.createdAt
            updatedAt := row.updatedAt }, ?_, rfl, rfl⟩, ?_, ?_⟩
  · simp only [orderRepository.FindByID, orderRepository.GetOrderItems,
      orderRepository.GetShippingInfo, noFail, Bool.false_eq_true, if_false, horder,
      huser, hship]
    rfl
  · simp only [orderUseCase.GetOrderWithDetails, orderRepository.FindByID,
      orderRepository.GetOrderItems, orderRepository.GetShippingInfo, noFail,
      Bool.false_eq_true, if_false, horder, huser, hship]
    rfl
  · simp only [orderRepository.FindByID, orderRepository.GetOrderItems,
      orderRepository.GetShippingInfo, hemp0, hemp1, hemp2, Bool.false_eq_true, if_false,
      if_true, horder, huser, hship]
    rfl
  · simp only [orderUseCase.GetOrderWithDetails, orderRepository.FindByID,
      orderRepository.GetOrderItems, orderRepository.GetShippingInfo, hf40, hf41, hf42,
      hf43, hf44, Bool.false_eq_true, if_false, if_true, horder, huser, hship]
    rfl

def dbC10 : DB :=
  { users := [{ id := 1 }],
    orders := [{ id := 1, userId := 1, totalAmount := 30, paymentMethod := "paypal" }],
    orderItems := [{ id := 1, orderId := 1, productId := 1, quantity := 3, price := 10 }] }

/-- C10 witness: order 1 exists with no shipping row; both reads succeed
with the zero-valued shipping struct, and an injected failure of the
shipping query propagates as an internal error. -/
theorem C10_witness :
    (∃ o, (orderRepository.FindByID noFail 0 dbC10 1).1 = .ok o ∧
      o.shippingInfo = zeroShippingInfo ∧ o.id = 1) ∧
    (∃ o, (orderUseCase.GetOrderWithDetails noFail 0 dbC10 1).1 = .ok o ∧
      o.shippingInfo = zeroShippingInfo ∧ o.id = 1) ∧
    (orderRepository.FindByID (failOnly 2) 0 dbC10 1).1 = .error NewInternalError ∧
    (orderUseCase.GetOrderWithDetails (failOnly 4) 0 dbC10 1).1
      = .error NewInternalError :=
  C10_missing_shipping_absorbed dbC10 1
    { id := 1, userId := 1, totalAmount := 30, paymentMethod := "paypal" }
    { id := 1 } rfl rfl rfl

end GoCleanArch
